import Mathlib

set_option maxRecDepth 20000

/-! Shallow embedding of the syllabus parser in `src/main.py`: the function
`parse_syllabus` (lines 20-200) together with the regular-expression
patterns it compiles (lines 39-48). Text is modelled as `List Char`; each
Python regex is implemented as an explicit matching function whose
backtracking behaviour mirrors Python's `re` engine on the pattern. -/

/-- The whitespace characters of Python's `str.strip()` and of the regex
class `\s` (the ASCII ones; the inputs considered contain no other
whitespace characters). -/
def pyWs (c : Char) : Bool :=
  c = ' ' || c = '\t' || c = '\n' || c = '\r' || c = '\x0b' || c = '\x0c'

/-- Python `str.strip()`: drop leading and trailing whitespace. -/
def pyStrip (l : List Char) : List Char :=
  ((l.dropWhile pyWs).reverse.dropWhile pyWs).reverse

/-- Code point with ASCII upper-case letters mapped to lower case, for the
`re.IGNORECASE` comparisons (all pattern characters are ASCII). -/
def lowNat (c : Char) : Nat :=
  if 65 ≤ c.toNat && c.toNat ≤ 90 then c.toNat + 32 else c.toNat

/-- Case-insensitive character comparison. -/
def ciEqCh (a b : Char) : Bool := lowNat a == lowNat b

/-- Case-sensitive "starts with" (Python `str.startswith`). -/
def hasPref : List Char → List Char → Bool
  | [], _ => true
  | _ :: _, [] => false
  | p :: ps, c :: cs => p == c && hasPref ps cs

/-- Case-insensitive "starts with". -/
def ciHasPref : List Char → List Char → Bool
  | [], _ => true
  | _ :: _, [] => false
  | p :: ps, c :: cs => ciEqCh p c && ciHasPref ps cs

/-- Case-insensitive substring search (`re.search` of a literal pattern). -/
def ciContains (pat : List Char) : List Char → Bool
  | [] => ciHasPref pat []
  | c :: cs => ciHasPref pat (c :: cs) || ciContains pat cs

/-- Python `text.split('\n')`: every `'\n'` separates, empty pieces kept;
`cur` holds the piece being read, reversed. -/
def splitLinesAux (cur : List Char) : List Char → List (List Char)
  | [] => [cur.reverse]
  | c :: cs =>
    if c = '\n' then cur.reverse :: splitLinesAux [] cs
    else splitLinesAux (c :: cur) cs

/-- Python `text.split('\n')`. -/
def splitLines (l : List Char) : List (List Char) := splitLinesAux [] l

/-- Drop one leading `'"'` if present (the regex piece `\"?`). -/
def dropQuote (l : List Char) : List Char :=
  match l with
  | '"' :: cs => cs
  | _ => l

/-- Python `"\n".join`. -/
def joinNl : List (List Char) → List Char
  | [] => []
  | [l] => l
  | l :: ls => l ++ '\n' :: joinNl ls

/-- The regex `course_title_pattern` of main.py line 39,
`^\s*\"?Course Title:\s*(.*?)\"?\s*$` with `re.IGNORECASE`, as `.match`:
returns group 1 when the whole line matches. The greedy `\s*` pieces take
maximal whitespace, and the lazy `(.*?)` leaves the longest suffix of the
form `\"?\s*` outside the group. -/
def course_title_pattern (l : List Char) : Option (List Char) :=
  let r := dropQuote (l.dropWhile pyWs)
  if ciHasPref "course title:".data r then
    let r2 := (r.drop 13).dropWhile pyWs
    let rev := r2.reverse.dropWhile pyWs
    some (dropQuote rev).reverse
  else none

/-- The character class `[A-Za-z0-9\s\(\)\-\:]` of `general_title_pattern`. -/
def gtClass (c : Char) : Bool :=
  ('A' ≤ c && c ≤ 'Z') || ('a' ≤ c && c ≤ 'z') || ('0' ≤ c && c ≤ '9') ||
    pyWs c || c = '(' || c = ')' || c = '-' || c = ':'

/-- ASCII `[A-Z]`. -/
def isUpperAscii (c : Char) : Bool := 'A' ≤ c && c ≤ 'Z'

/-- Remainder check `\"?\s*$` for the lazy group of `general_title_pattern`. -/
def quoteWsEnd (l : List Char) : Bool := (dropQuote l).all pyWs

/-- The regex `general_title_pattern` of main.py line 42,
`^\s*\"?([A-Z][A-Za-z0-9\s\(\)\-\:]+?)\"?\s*$`, as `.match`: returns
group 1. The lazy group is the line minus the longest trailing `\"?\s*`
suffix, except that when that leaves fewer than the two required
characters the group is re-extended to length two. -/
def general_title_pattern (l : List Char) : Option (List Char) :=
  let r := dropQuote (l.dropWhile pyWs)
  match r with
  | [] => none
  | c0 :: rest =>
    if isUpperAscii c0 then
      let rev := r.reverse.dropWhile pyWs
      let core := (dropQuote rev).reverse
      if 2 ≤ core.length then
        if (core.drop 1).all gtClass then some core else none
      else
        match rest with
        | [] => none
        | c1 :: rest2 => if gtClass c1 && quoteWsEnd rest2 then some [c0, c1] else none
    else none

/-- The regex `detail_keywords_re` of main.py lines 44-45 as `.search`:
one of the six detail labels occurs (case-insensitively) in the line. -/
def detail_keywords_re (l : List Char) : Bool :=
  ciContains "course no:".data l || ciContains "nature of the course:".data l ||
    ciContains "semester:".data l || ciContains "full marks:".data l ||
    ciContains "pass marks:".data l || ciContains "credit hrs:".data l

/-- A character of the class `[IVXLCDM]` under `re.IGNORECASE`. -/
def romanCh (c : Char) : Bool :=
  let n := lowNat c
  n = 105 || n = 118 || n = 120 || n = 108 || n = 99 || n = 100 || n = 109

/-- The regex `unit_start_re` of main.py line 46,
`^\s*Unit\s+[IVXLCDM]+[:\s(]` with `re.IGNORECASE`, as `.match` (Boolean). -/
def unit_start_re (l : List Char) : Bool :=
  let r := l.dropWhile pyWs
  if ciHasPref "unit".data r then
    match r.drop 4 with
    | [] => false
    | c1 :: _ =>
      if pyWs c1 then
        match (r.drop 4).dropWhile pyWs with
        | [] => false
        | c2 :: _ =>
          if romanCh c2 then
            match ((r.drop 4).dropWhile pyWs).dropWhile romanCh with
            | [] => false
            | c3 :: _ => c3 = ':' || c3 = '(' || pyWs c3
          else false
      else false
  else false

/-- The regex `lab_work_start_re` of main.py line 47,
`^\s*(Laboratory Works?:|Lab Work:)` with `re.IGNORECASE`, as `.match`:
returns group 0 (the matched slice of the line, leading whitespace
included) when it matches. -/
def lab_work_start_re (l : List Char) : Option (List Char) :=
  let w := l.takeWhile pyWs
  let r := l.dropWhile pyWs
  if ciHasPref "laboratory work".data r then
    match r.drop 15 with
    | 's' :: ':' :: _ => some (w ++ r.take 17)
    | 'S' :: ':' :: _ => some (w ++ r.take 17)
    | ':' :: _ => some (w ++ r.take 16)
    | _ => none
  else if ciHasPref "lab work:".data r then some (w ++ r.take 9)
  else none

/-- The regex `books_start_re` of main.py line 48,
`^\s*(Text Books?:|Reference Books?:)` with `re.IGNORECASE`, as `.match`
(Boolean). -/
def books_start_re (l : List Char) : Bool :=
  let r := l.dropWhile pyWs
  (ciHasPref "text book".data r &&
    (match r.drop 9 with
     | 's' :: ':' :: _ => true
     | 'S' :: ':' :: _ => true
     | ':' :: _ => true
     | _ => false)) ||
  (ciHasPref "reference book".data r &&
    (match r.drop 14 with
     | 's' :: ':' :: _ => true
     | 'S' :: ':' :: _ => true
     | ':' :: _ => true
     | _ => false))

/-- ASCII digit. -/
def digitCh (c : Char) : Bool := '0' ≤ c && c ≤ '9'

/-- ASCII letter. -/
def letterCh (c : Char) : Bool := ('A' ≤ c && c ≤ 'Z') || ('a' ≤ c && c ≤ 'z')

/-- State machine for `\d+\.\d+(\.\d+)*\s+`: `inGroup` is true when at
least one digit of the current dotted group has been read, `groups`
counts the dot-terminated groups already completed. Accepts on a
whitespace character once at least two groups (`1.2`) are complete. -/
def subNumAux : Bool → Nat → List Char → Bool
  | _, _, [] => false
  | inGroup, groups, c :: cs =>
    if digitCh c then subNumAux true groups cs
    else if inGroup then
      if c = '.' then subNumAux false (groups + 1) cs
      else pyWs c && 2 ≤ groups + 1
    else false

/-- The inline regex `^\s*\d+\.\d+(\.\d+)*\s+` of main.py line 173 as
`re.match` (Boolean). -/
def subnum_re (l : List Char) : Bool := subNumAux false 0 (l.dropWhile pyWs)

/-- The inline regex `^\s*[a-zA-Z][.)]\s+` of main.py line 174 as
`re.match` (Boolean). -/
def subletter_re (l : List Char) : Bool :=
  match l.dropWhile pyWs with
  | a :: b :: c :: _ => letterCh a && (b = '.' || b = ')') && pyWs c
  | _ => false

/-- `re.search` for `<label>\s*(\S+)` with `re.IGNORECASE` (the detail
field extractors of main.py lines 105-118): at the leftmost position
where the label matches and a nonempty token follows after optional
whitespace, return that token. -/
def searchLabelToken (lab : List Char) : List Char → Option (List Char)
  | [] => none
  | c :: cs =>
    if ciHasPref lab (c :: cs) then
      match ((c :: cs).drop lab.length).dropWhile pyWs with
      | [] => searchLabelToken lab cs
      | t :: ts => some ((t :: ts).takeWhile (fun d => !pyWs d))
    else searchLabelToken lab cs

/-- Backtracking for `\s*(.+)` at one candidate position of the `Nature`
extractor: the greedy `\s*` gives characters back until `.+` (one or more
non-newline characters) can match; `none` when no split works. -/
def wsDotBacktrack (r : List Char) : Option (List Char) :=
  match r.dropWhile pyWs with
  | c :: cs => some ((c :: cs).takeWhile (fun d => d ≠ '\n'))
  | [] =>
    match (r.takeWhile pyWs).reverse.dropWhile (fun d => d = '\n') with
    | [] => none
    | c :: _ => some [c]

/-- `re.search` for `Nature of the Course:\s*(.+)` with `re.IGNORECASE`
(main.py line 120): group 1 at the leftmost position where the whole
piece matches. -/
def searchNature : List Char → Option (List Char)
  | [] => none
  | c :: cs =>
    if ciHasPref "nature of the course:".data (c :: cs) then
      match wsDotBacktrack ((c :: cs).drop 21) with
      | some g => some g
      | none => searchNature cs
    else searchNature cs

/-- Python `str.replace(pat, "")`: remove every leftmost, non-overlapping
occurrence of `pat`; `skip` counts characters of a just-matched occurrence
still to be discarded. -/
def replaceAllAux (pat : List Char) : Nat → List Char → List Char
  | _, [] => []
  | skip + 1, _ :: cs => replaceAllAux pat skip cs
  | 0, c :: cs =>
    if hasPref pat (c :: cs) then
      match pat with
      | [] => c :: replaceAllAux pat 0 cs
      | _ :: ps => replaceAllAux pat ps.length cs
    else c :: replaceAllAux pat 0 cs

/-- Python `s.replace(pat, "")`. -/
def replaceAll (pat s : List Char) : List Char := replaceAllAux pat 0 s

/-- One course record: the value dictionary `{"Units": [...], "Lab Work":
"...", "Details": {...}}` of `parse_syllabus`. -/
structure CourseRec where
  units : List (List Char)
  labWork : List Char
  details : List (String × List Char)
deriving DecidableEq, Repr

/-- The `defaultdict` default of main.py line 31. -/
def emptyRec : CourseRec := ⟨[], [], []⟩

/-- Key membership in the insertion-ordered dictionary. -/
def hasKey (d : List (List Char × CourseRec)) (k : List Char) : Bool :=
  d.any (fun p => p.1 == k)

/-- The bare access `syllabus_data[current_subject]` of main.py line 91 on
a `defaultdict`: create the key with the default record if absent. -/
def ensureKey (d : List (List Char × CourseRec)) (k : List Char) :
    List (List Char × CourseRec) :=
  if hasKey d k then d else d ++ [(k, emptyRec)]

/-- Mutation of `syllabus_data[k]` through `f` with `defaultdict`
semantics: update in place when the key exists, else append a new entry
holding `f` of the default record. -/
def modifyRec (k : List Char) (f : CourseRec → CourseRec) :
    List (List Char × CourseRec) → List (List Char × CourseRec)
  | [] => [(k, f emptyRec)]
  | (k', r) :: rest =>
    if k' = k then (k', f r) :: rest else (k', r) :: modifyRec k f rest

/-- Python dict assignment `d[key] = v` on the details dictionary. -/
def detailSet (key : String) (v : List Char) :
    List (String × List Char) → List (String × List Char)
  | [] => [(key, v)]
  | (k', v') :: rest =>
    if k' = key then (key, v) :: rest else (k', v') :: detailSet key v rest

/-- Python `d.get(key)` on the details dictionary. -/
def dlookup (key : String) : List (String × List Char) → Option (List Char)
  | [] => none
  | (k', v') :: rest => if k' = key then some v' else dlookup key rest

/-- One conditional detail assignment (`if m: details[key] = ...`). -/
def applyDetail (key : String) (res : Option (List Char))
    (ds : List (String × List Char)) : List (String × List Char) :=
  match res with
  | some v => detailSet key v ds
  | none => ds

/-- The six detail-field extractions of main.py lines 105-121 applied to
the joined details block, in source order. -/
def extractDetails (dt : List Char) (ds : List (String × List Char)) :
    List (String × List Char) :=
  let ds := applyDetail "Course No" (searchLabelToken "course no:".data dt) ds
  let ds := applyDetail "Credit Hrs" (searchLabelToken "credit hrs:".data dt) ds
  let ds := applyDetail "Semester" (searchLabelToken "semester:".data dt) ds
  let ds := applyDetail "Full Marks" (searchLabelToken "full marks:".data dt) ds
  let ds := applyDetail "Pass Marks" (searchLabelToken "pass marks:".data dt) ds
  applyDetail "Nature" ((searchNature dt).map pyStrip) ds

/-- Python `range(lo, lo + n)` as a list of indices. -/
def natRange : Nat → Nat → List Nat
  | _, 0 => []
  | lo, n + 1 => lo :: natRange (lo + 1) n

/-- The keyword check of main.py lines 60-63: some raw line in
`range(idx, min(idx + 4, len))` contains a detail keyword. -/
def kwWindow (lines : List (List Char)) (len idx : Nat) : Bool :=
  (natRange idx (min (idx + 4) len - idx)).any
    (fun i => detail_keywords_re (lines.getD i []))

/-- The lookahead of main.py lines 77-81: some stripped line in
`range(idx + 1, min(idx + 4, len))` starts with `Course No:`. -/
def courseNoWindow (lines : List (List Char)) (len idx : Nat) : Bool :=
  (natRange (idx + 1) (min (idx + 4) len - (idx + 1))).any
    (fun i => hasPref "Course No:".data (pyStrip (lines.getD i [])))

/-- The heuristic title recognizer of main.py lines 67-81: a general-title
match whose stripped group passes the length and exclusion filters and is
followed within three lines by a `Course No:` line. -/
def heuristicTitle (lines : List (List Char)) (len idx : Nat)
    (line : List Char) : Option (List Char) :=
  match general_title_pattern line with
  | none => none
  | some g =>
    let tt := pyStrip g
    if 4 < tt.length && !unit_start_re tt && !(lab_work_start_re tt).isSome &&
        !books_start_re tt && !detail_keywords_re tt then
      if courseNoWindow lines len idx then some tt else none
    else none

/-- Title detection for one line (main.py lines 52-81): the explicit
`Course Title:` recognizer first, the heuristic one only when the
explicit one did not set `title_found_this_iteration`; returns the
accepted title exactly when the branch of line 83 fires (found, and the
title truthy). -/
def titleDetect (lines : List (List Char)) (len idx : Nat)
    (line : List Char) : Option (List Char) :=
  match course_title_pattern line with
  | some g =>
    if kwWindow lines len idx then
      (let pt := pyStrip g
       if pt = [] then none else some pt)
    else heuristicTitle lines len idx line
  | none => heuristicTitle lines len idx line

/-- The details block collection of main.py lines 94-101: raw lines from
`idx`, at most `min(idx + 7, len) - idx` of them (the fuel), stopping
after a blank line (once more than one line is collected) that is
followed by a line matching either title pattern. -/
def detailsBlockAux (lines : List (List Char)) (len : Nat) :
    Nat → Nat → Bool → List (List Char)
  | 0, _, _ => []
  | fuel + 1, i, first =>
    let li := lines.getD i []
    let stop := !first && (pyStrip li).isEmpty && decide (i + 1 < len) &&
      ((course_title_pattern (lines.getD (i + 1) [])).isSome ||
       (general_title_pattern (lines.getD (i + 1) [])).isSome)
    li :: (if stop then [] else detailsBlockAux lines len fuel (i + 1) false)

/-- The lab-work consumption loop of main.py lines 148-165. The fuel is
`len - temp` at entry, so fuel exhaustion coincides with `temp = len`,
the loop's own exit condition; returns the collected description lines
and the final `temp_idx`. -/
def labScanAux (lines : List (List Char)) (len : Nat) :
    Nat → Nat → Nat → List (List Char) → List (List Char) × Nat
  | 0, temp, _, desc => (desc, temp)
  | fuel + 1, temp, blanks, desc =>
    let nl := pyStrip (lines.getD temp [])
    if nl.isEmpty && 2 ≤ blanks + 1 then (desc, temp)
    else
      let blanks' := if nl.isEmpty then blanks + 1 else 0
      if books_start_re nl || (course_title_pattern nl).isSome ||
          ((general_title_pattern nl).isSome && decide (temp + 1 < len) &&
            hasPref "Course No:".data (pyStrip (lines.getD (temp + 1) []))) then
        (desc, temp)
      else labScanAux lines len fuel (temp + 1) blanks' (desc ++ [nl])

/-- A unit-buffer flush (main.py lines 84-86 and its four copies): join
the buffered lines, strip, and append to the course's unit list when the
result is nonempty. -/
def flushUnit (d : List (List Char × CourseRec)) (s : List Char)
    (buf : List (List Char)) : List (List Char × CourseRec) :=
  if buf.isEmpty then d
  else
    let ut := pyStrip (joinNl buf)
    if ut.isEmpty then d
    else modifyRec s (fun r => { r with units := r.units ++ [ut] }) d

/-- The mutable state of the scan loop of `parse_syllabus`. -/
structure PState where
  data : List (List Char × CourseRec)
  currentSubject : Option (List Char)
  parsingContents : Bool
  currentUnit : List (List Char)
  lineIdx : Nat
deriving Repr

/-- One iteration of the `while` loop of main.py lines 50-186, for
`lineIdx < len`: the branch chain of lines 56-184 followed by the
`line_idx += 1` of line 186 (folded into each branch's resulting index). -/
def step (lines : List (List Char)) (len : Nat) (st : PState) : PState :=
  let idx := st.lineIdx
  let line := pyStrip (lines.getD idx [])
  match titleDetect lines len idx line with
  | some pt =>
    let d1 := match st.currentSubject with
      | some s => flushUnit st.data s st.currentUnit
      | none => st.data
    let d2 := ensureKey d1 pt
    let dt := joinNl (detailsBlockAux lines len (min (idx + 7) len - idx) idx true)
    let d3 := modifyRec pt (fun r => { r with details := extractDetails dt r.details }) d2
    { data := d3, currentSubject := some pt, parsingContents := false,
      currentUnit := [], lineIdx := idx + 1 }
  | none =>
    if hasPref "Course Contents:".data line then
      match st.currentSubject with
      | some s =>
        { st with data := flushUnit st.data s st.currentUnit,
                  parsingContents := true, currentUnit := [], lineIdx := idx + 1 }
      | none => { st with lineIdx := idx + 1 }
    else
      match st.currentSubject with
      | none => { st with lineIdx := idx + 1 }
      | some s =>
        if st.parsingContents && unit_start_re line then
          { st with data := flushUnit st.data s st.currentUnit,
                    currentUnit := [line], lineIdx := idx + 1 }
        else
          match lab_work_start_re line with
          | some g0 =>
            let d1 := flushUnit st.data s st.currentUnit
            let seed := pyStrip (replaceAll g0 line)
            let scan := labScanAux lines len (len - (idx + 1)) (idx + 1) 0 [seed]
            let labText := pyStrip (joinNl (scan.1.filter (fun d => !d.isEmpty)))
            { st with data := modifyRec s (fun r => { r with labWork := labText }) d1,
                      parsingContents := false, currentUnit := [],
                      lineIdx := (scan.2 - 1) + 1 }
          | none =>
            if st.parsingContents && !st.currentUnit.isEmpty && !line.isEmpty then
              if subnum_re line || subletter_re line ||
                  (hasPref "  ".data line || hasPref "\t".data line) ||
                  !(unit_start_re line || (lab_work_start_re line).isSome ||
                    books_start_re line || (course_title_pattern line).isSome) then
                { st with currentUnit := st.currentUnit ++ [line], lineIdx := idx + 1 }
              else
                { st with data := flushUnit st.data s st.currentUnit,
                          currentUnit := [], lineIdx := idx }
            else { st with lineIdx := idx + 1 }

/-- The `while line_idx < len(lines)` loop, with explicit fuel; `none`
models fuel exhaustion (shown below never to happen at the fuel
`parseLines` supplies). -/
def loop (lines : List (List Char)) (len : Nat) : Nat → PState → Option PState
  | 0, _ => none
  | fuel + 1, st =>
    if st.lineIdx < len then loop lines len fuel (step lines len st)
    else some st

/-- The initial state of main.py lines 31-36. -/
def initState : PState := ⟨[], none, false, [], 0⟩

/-- The final filter of main.py lines 193-196: keep a record whose unit
list is nonempty, or whose lab work is nonempty, or whose details are
nonempty with a truthy `Course No` entry. -/
def keepRec (p : List Char × CourseRec) : Bool :=
  !p.2.units.isEmpty || !p.2.labWork.isEmpty ||
    (!p.2.details.isEmpty &&
      (match dlookup "Course No" p.2.details with
       | some v => !v.isEmpty
       | none => false))

/-- After the loop: the last-unit flush of main.py lines 188-190, then the
final filter. (The loop of lines 197-199 re-adding a `"Units"` key is a
no-op here: the field always exists.) -/
def finalize (st : PState) : List (List Char × CourseRec) :=
  let d := match st.currentSubject with
    | some s => flushUnit st.data s st.currentUnit
    | none => st.data
  d.filter keepRec

/-- `parse_syllabus` on a pre-split line list; the fuel `2 * length + 1`
is proved sufficient below. -/
def parseLines (lines : List (List Char)) : List (List Char × CourseRec) :=
  match loop lines lines.length (2 * lines.length + 1) initState with
  | some st => finalize st
  | none => []

/-- The function `parse_syllabus` of main.py lines 20-200. -/
def parse_syllabus (text : String) : List (List Char × CourseRec) :=
  parseLines (splitLines text.data)
/-- The module-level string `pdf_text` of main.py lines 205-794: the
bundled syllabus fixture passed to `parse_syllabus` at startup. -/
def pdf_text : String :=
  "\n--- PAGE 1 ---\n\nCourse Title: Theory of Computation\nCourse No: CSC257\nNature of the Course: Theory + Lab\nSemester: IV\nFull Marks: $60+20+20$\nPass Marks: $24+8+8$\nCredit Hrs: 3\n\nCourse Description: This course presents a study of Finite State Machines and their languages.\nIt covers the details of finite state automata, regular expressions, context free grammars. More,\nthe course includes design of the Push-down automata and Turing Machines. The course also\nincludes basics of undecidabilty and intractability.\n\nCourse Objectives: The main objective of the course is to introduce concepts of the models of\ncomputation and formal language approach to computation. The general objectives of this\ncourse are to, introduce concepts in automata theory and theory of computation, design different\nfinite state machines and grammars and recognizers for different formal languages, identify\ndifferent formal language classes and their relationships, determine the decidability and\nintractability of computational problems.\n\nCourse Contents:\n\nUnit I: Basic Foundations (3 Hrs.)\n1.1. Review of Set Theory, Logic, Functions, Proofs\n1.2. Automata, Computability and Complexity: Complexity Theory, Computability Theory,\nAutomata Theory\n1.3. Basic concepts of Automata Theory: Alphabets, Power of Alphabet, Kleen Closure\nAlphabet, Positive Closure of Alphabet, Strings, Empty String, Substring of a string,\nConcatenation of strings, Languages, Empty Language\n\nUnit II: Introduction to Finite Automata (8 Hrs.)\n2.1 Introduction to Finite Automata, Introduction of Finite State Machine\n2.2 Deterministic Finite Automata (DFA), Notations for DFA, Language of DFA, Extended\nTransition Function of DFA Non-Deterministic Finite Automaton (NFA), Notations for\nNFA, Language of NFA, Extended Transition\n2.3 Equivalence of DFA and NFA, Subset-Construction\n2.4 Method for reduction of NFA to DFA, Theorems for equivalence of Language accepted\nby DFA and NFA\n2.5 Finite Automaton with Epsilon Transition (Œµ - NFA), Notations for  NFA, Epsilon\nClosure of a State, Extended Transition Function of  NFA, Removing Epsilon\nTransition using the concept of Epsilon Closure, Equivalence of NFA and  -NFA,\nEquivalence of DFA and  - NFA\n2.6 Finite State Machines with output: Moore machine and Mealy Machines\n\nUnit III: Regular Expressions (6 Hrs.)\n3.1 Regular Expressions, Regular Operators, Regular Languages and their applications,\nAlgebraic Rules for Regular Expressions\n\n36\n\n\n--- PAGE 2 ---\n\n3.2 Equivalence of Regular Expression and Finite Automata, Reduction of Regular\nExpression to  ‚Äì NFA, Conversion of DFA to Regular Expression\n3.3 Properties of Regular Languages, Pumping Lemma, Application of Pumping Lemma,\nClosure Properties of Regular Languages over (Union, Intersection, Complement)\nMinimization of Finite State Machines: Table Filling Algorithm\n\nUnit IV: Context Free Grammar (9 Hrs.)\n4.1 Introduction to Context Free Grammar (CFG), Components of CFG, Use of CFG,\nContext Free Language (CFL)\n4.2 Types of derivations: Bottomup and Topdown approach, Leftmost and Rightmost,\nLanguage of a grammar\n4.3 Parse tree and its construction, Ambiguous grammar, Use of parse tree to show ambiguity\nin grammar\n4.4 Regular Grammars: Right Linear and Left Linear, Equivalence of regular grammar and\nfinite automata\n4.5 Simplification of CFG: Removal of Useless symbols, Nullable Symbols, and Unit\nProductions, Chomsky Normal Form (CNF), Greibach Normal Form (GNF), Backus-\nNaur Form (BNF)\n4.6 Context Sensitive Grammar, Chomsky Hierarchy Pumping Lemma for CFL, Application\nof Pumping Lemma, Closure Properties of CFL\n\nUnit V: Push Down Automata (7 Hrs.)\n5.1 Introduction to Push Down Automata (PDA), Representation of PDA, Operations of\nPDA, Move of a PDA, Instantaneous Description for PDA\n5.2 Deterministic PDA, Non Deterministic PDA, Acceptance of strings by PDA, Language\nof PDA\n5.3 Construction of PDA by Final State, Construction of PDA by Empty Stack,\n5.4 Conversion of PDA by Final State to PDA accepting by Empty Stack and vice-versa,\nConversion of CFG to PDA, Conversion of PDA to CFG\n\nUnit VI: Turing Machines (10 Hrs.)\n6.1 Introduction to Turing Machines (TM), Notations of Turing Machine, Language of a\nTuring Machine, Instantaneous Description for Turing Machine, Acceptance of a string\nby a Turing Machines\n6.2 Turing Machine as a Language Recognizer, Turing Machine as a Computing Function,\nTuring Machine with Storage in its State, Turing Machine as a enumerator of stings of a\nlanguage, Turing Machine as Subroutine\n6.3 Turing Machine with Multiple Tracks, Turing Machine with Multiple Tapes, Equivalence\nof Multitape-TM and Multitrack-TM, Non-Deterministic Turing Machines, Restricted\nTuring Machines: With Semi-infinite Tape, Multistack Machines, Counter Machines\n6.4 Curch Turing Thesis, Universal Turing Machine, Turing Machine and Computers,\nEncoding of Turing Machine, Enumerating Binary Strings, Codes of Turing Machine,\nUniversal Turing Machine for encoding of Turing Machine\n\n37\n\n\n--- PAGE 3 ---\n\nUnit VII: Undecidability and Intractability (5 Hrs.)\n7.1 Computational Complexity, Time and Space complexity of A Turing Machine,\nIntractability\n7.2 Complexity Classes, Problem and its types: Absract, Decision, Optimization\n7.3 Reducibility, Turing Reducible, Circuit Satisfiability, Cook's Theorem,\n7.4 Undecidability, Undecidable Problems: Post's Correspondence Problem, Halting\nProblem and its proof, Undecidable Problem about Turing Machines\n\nLaboratory Works:\nThe laboratory work consists of design and implementation of finite state machines like DFA,\nNFA, PDA, and Turing Machine. Students are highly recommended to construct Tokenizers/\nLexers over/for some language. Students are advised to use regex and Perl (for using regular\nexpressions), or any other higher level language for the laboratory works.\n\nText Books:\n1. John E. Hopcroft, Rajeev Motwani, Jeffrey D. Ullman, Introduction to Automata\nTheory, Languages, and Computation, 3rd Edition, Pearson - Addison-Wesley.\n\nReference Books:\n1. Harry R. Lewis and Christos H. Papadimitriou, Elements of the Theory of Computation,\n$2^\x7bnd\x7d$ Edition, Prentice Hall.\n2. Michael Sipser, Introduction to the Theory of Computation, $3^\x7brd\x7d$ Edition, Thomson Course\nTechnology\n3. Efim Kinber, Carl Smith, Theory of Computing: A Gentle introduction, Prentice- Hall.\n4. John Martin, Introduction to Languages and the Theory of Computation, 3rd Edition, Tata\nMcGraw Hill.\n5. Kenneth H. Rosen, Discrete Mathematics and its Applications to Computers Science,\nWCB/Mc-Graw Hill.\n\n38\n\n\n--- PAGE 4 ---\n\nCourse Title: Computer Networks\nCourse No: CSC258\nNature of the Course: Theory + Lab\nSemester: IV\nFull Marks: $60+20+20$\nPass Marks: $24+8+8$\nCredit Hrs: 3\n\nCourse Description: This course introduces concept of computer networking and discuss the\ndifferent layers of networking model.\n\nCourse Objective: The main objective of this course is to introduce the understanding of the\nconcept of computer networking with its layers, topologies, protocols & standards, IPv4/IPv6\naddressing, Routing and Latest Networking Standards\n\nCourse Contents:\n\nUnit 1: Introduction to Computer Network (6Hrs.)\n1.1. Definitions, Uses, Benefits\n1.2. Overview of Network Topologies (Star, Tree, Bus,...)\n1.3. Overview of Network Types (PAN, LAN, CAN, MAN,...)\n1.4. Networking Types (Client/Server, P2P)\n1.5. Overview of Protocols and Standards\n1.6. OSI Reference Model\n1.7. TCP/IP Models and its comparison with OSI.\n1.8. Connection and Connection-Oriented Network Services\n1.9. Internet, ISPs, Backbone Network Overview\n\nUnit 2: Physical Layer and Network Media (4Hrs.)\n2.1. Network Devices: Repeater, Hub, Switch, Bridge, Router\n2.2. Different types of transmission medias (wired: twisted pair, coaxial, fiber optic, Wireless:\nRadio waves, micro waves, infrared)\n2.3. Ethernet Cable Standards (UTP & Fiber cable standards)\n2.4. Circuit, Message & Packet Switching\n2.5. ISDN: Interface and Standards\n\nUnit 3: Data Link Layer (8Hrs.)\n3.1. Function of Data Link Layer (DLL)\n3.2. Overview of Logical Link Control (LLC) and Media Access Control (MAC)\n3.3. Framing and Flow Control Mechanisms\n3.4. Error Detection and Correction techniques\n3.5. Channel Allocation Techniques (ALOHA, Slotted ALOHA)\n3.6. Ethernet Standards (802.3 CSMA/CD, 802.4 Token Bus, 802.5 Token Ring)\n3.7. Wireless LAN: Spread Spectrum, Bluetooth, Wi-Fi\n3.8. Overview Virtual Circuit Switching, Frame Relay& ATM\n3.9. DLL Protocol: HDLC, PPP\n\n39\n\n\n--- PAGE 5 ---\n\nUnit 4: Network Layer (10Hrs.)\n4.1. Introduction and Functions\n4.2. IPv4 Addressing & Sub-netting\n4.3. Class-full and Classless Addressing\n4.4. IPv6 Addressing and its Features\n4.5. IPv4 and IPv6 Datagram Formats\n4.6. Comparison of IPv4 and IPv6 Addressing\n4.7. Example Addresses: Unicast, Multicast and Broadcast\n4.8. Routing\n4.8.1. Introduction and Definition\n4.8.2. Types of Routing (Static vs Dynamic, Unicast vs Multicast, Link State vs\nDistance Vector, Interior vs Exterior)\n4.8.3. Path Computation Algorithms: Bellman Ford, Dijkstra's\n4.8.4. Routing Protocols: RIP, OSPF & BGP\n4.9. Overview of IPv4 to IPv6 Transition Mechanisms\n4.10. Overview of ICMP/ICMPv6&NATing\n4.11. Overview of Network Traffic Analysis\n4.12. Security Concepts: Firewall & Router Access Control\n\nUnit 5: Transport Layer (6Hrs.)\n5.1. Introduction, Functions and Services\n5.2. Transport Protocols: TCP, UDP and Their Comparisons\n5.3. Connection Oriented and Connectionless Services\n5.4. Congestion Control: Open Loop & Closed Loop, TCP Congestion Control\n5.5. Traffic Shaping Algorithms: Leaky Bucket & Token Bucket\n5.6. Queuing Techniques for Scheduling\n5.7. Introduction to Ports and Sockets, Socket Programming\n\nUnit 6: Application Layer (7Hrs.)\n6.1. Introduction and Functions\n6.2. Web &HTTP\n6.3. DNS and the Query Types\n6.4. File Transfer and Email Protocols: FTP, SFTP, SMTP, IMAP, POP3\n6.5. Overview of Application Server Concepts: Proxy, Web, Mail\n6.6. Network Management: SNMP\n\nUnit 7: Multimedia & Future Networking (4Hrs.)\n7.1. Overview Multimedia Streaming Protocols: SCTP\n7.2. Overview of SDN and its Features, Data and Control Plane\n7.3. Overview of NFV\n7.4. Overview of NGN\n\nLaboratory Works:\nThe lab activities under this subject should accommodate at least the following;\n1. Understanding of Network equipment, wiring in details\n2. OS (Ubuntu/CentOS/Windows) installation, practice on basic Networking commands\n\n40\n\n\n--- PAGE 6 ---\n\n(ifconfig/ipconfig, tcpdump, netstat, dnsip, hostname, route...)\n3. Overview of IP Addressing and sub-netting, static ip setting on Linux/windows machine,\ntesting\n4. Introduction to Packet Tracer, creating of a LAN and connectivity test in the LAN,\ncreation of VLAN and VLAN trunking.\n5. Basic Router Configuration, Static Routing Implementation\n6. Implementation of Dyanmic/interior/exterior routing (RIP, OSPF, BGP)\n7. Firewall Implementation, Router Access Control List (ACL)\n8. Packet capture and header analysis by wire-shark (TCP, UDP, IP)\n9. DNS, Web, FTP server configuration (shall use packet tracer, GNS3)\n10. Case Study: Network Operation Center Visit (ISP, Telecom, University Network)\n11. LAB Exam, Report and VIVA\n\nText Books:\n1. Data Communications and Networking, 4th Edition, Behrouz A Forouzan. McGraw-Hill\n2. Computer Networking; A Top Down Approach Featuring The Internet, 2nd Edition,\nKurose James F., Ross W. Keith PEARSON EDUCATION ASIA\n\n41\n\n\n--- PAGE 7 ---\n\nCourse Title: Operating Systems\nCourse No: CSC259\nNature of the Course: Theory + Lab\nSemester: IV\nFull Marks: $60+20+20$\nPass Marks: 24+8+8\nCredit Hrs: 3\n\nCourse Description: This course includes the basic concepts of operating system components. It\nconsists of process management, deadlocks and process synchronization, memory management\ntechniques, File system implementation, and I/O device management principles. It also includes\ncase study on Linux operating system.\n\nCourse Objectives:\n‚Ä¢ Describe need and role of operating system.\n‚Ä¢ Understand OS components such a scheduler, memory manager, file system handlers and\nI/O device managers.\n‚Ä¢ Analyze and criticize techniques used in OS components\n‚Ä¢ Demonstrate and simulate algorithms used in OS components\n‚Ä¢ Identify algorithms and techniques used in different components of Linux\n\nCourse Contents:\n\nUnit 1: Operating System Overview (4 Hrs.)\n1.1. Definition, Two views of operating system, Evolution of operating system, Types of OS.\n1.2. System Call, Handling System Calls, System Programs, Operating System Structures,\nThe Shell, Open Source Operating Systems\n\nUnit 2: Process Management (10 Hrs.)\n2.1. Process vs Program, Multiprogramming, Process Model, Process States, Process Control\nBlock.\n2.2. Threads, Thread vs Process, User and Kernel Space Threads.\n2.3. Inter Process Communication, Race Condition, Critical Section\n2.4. Implementing Mutual Exclusion: Mutual Exclusion with Busy Waiting (Disabling\nInterrupts, Lock Variables, Strict Alteration, Peterson's Solution, Test and Set Lock),\nSleep and Wakeup, Semaphore, Monitors, Message Passing,\n2.5. Classical IPC problems: Producer Consumer, Sleeping Barber, Dining Philosopher\nProblem\n2.6. Process Scheduling: Goals, Batch System Scheduling (First-Come First-Served, Shortest\nJob First, Shortest Remaining Time Next), Interactive System Scheduling (Round-Robin\nScheduling, Priority Scheduling, Multiple Queues), Overview of Real Time System\nScheduling\n\nUnit 3: Process Deadlocks (6 Hrs.)\n3.1. Introduction, Deadlock Characterization, Preemptable and Non-preemptable Resources,\nResource - Allocation Graph, Conditions for Deadlock\n\n42\n\n\n--- PAGE 8 ---\n\n3.2. Handling Deadlocks: Ostrich Algorithm, Deadlock prevention, Deadlock Avoidance,\nDeadlock Detection (For Single and Multiple Resource Instances), Recovery From\nDeadlock (Through Preemption and Rollback)\n\nUnit 4: Memory Management (8 Hrs.)\n4.1. Introduction, Monoprogramming VS. Multi-programming, Modelling\nMultiprogramming, Multiprogramming with fixed and variable partitions, Relocation\nand Protection.\n4.2. Memory management (Bitmaps & Linked-list), Memory Allocation Strategies\n4.3. Virtual memory: Paging, Page Table, Page Table Structure, Handling Page Faults,\nTLB's\n4.4. Page Replacement Algorithms: FIFO, Second Chance, LRU, Optimal, LFU, Clock, WS-\nClock, Concept of Locality of Reference, Belady's Anomaly\n4.5. Segmentation: Need of Segmentation, its Drawbacks, Segmentation with Paging(MULTICS)\n\nUnit 5: File Management (6 Hrs.)\n5.1. File Overview: File Naming, File Structure, File Types, File Access, File Attributes, File\nOperations, Single Level, two Level and Hierarchical Directory Systems, File System\nLayout.\n5.2. Implementing Files: Contiguous allocation, Linked List Allocation, Linked List\nAllocation using Table in Memory, Inodes.\n5.3. Directory Operations, Path Names, Directory Implementation, Shared Files\n5.4. Free Space Management: Bitmaps, Linked List\n\nUnit 6: Device Management (6 Hrs.)\n6.1. Classification of IO devices, Controllers, Memory Mapped IO, DMA Operation,\nInterrupts\n6.2. Goals of IO Software, Handling IO(Programmed IO, Interrupt Driven IO, IO using\nDMA), IO Software Layers (Interrupt Handlers, Device Drivers)\n6.3. Disk Structure, Disk Scheduling (FCFS, SSTF, SCAN, CSCAN, LOOK, CLOOK), Disk\nFormatting (Cylinder Skew, Interleaving, Error handling), RAID\n\nUnit 7: Linux Case Study (5 Hrs.)\n7.1 History, Kernel Modules, Process Management, Scheduling, Inter-process\nCommunication, Memory Management, File System Management Approaches, Device\nManagement Approaches.\n\nLaboratory Works:\nThe laboratory work includes solving problems in operating system. The lab work should include\nat least;\nLearn basic Linux Commands\nCreate process, threads and implement IPC techniques\nSimulate process Scheduling algorithms and deadlock detection algorithms\nSimulate page replacement algorithms\nSimulate free space management techniques and disk scheduling algorithms.\n\n43\n\n\n--- PAGE 9 ---\n\nText Books:\n1. Modern Operating Systems: Andrew S. Tanenbaum, PH1 Publication, Third edition,\n2008\n\nReference Books:\n1. Abraham Silberschatz, Peter Baer Galvin and Greg Gagne, \"Operating System\nConcepts\", John Wiley & Sons (ASIA) Pvt. Ltd, Seventh edition, 2005.\n2. Harvey M. Deitel, Paul J. Deitel, and David R. Choffnes, \"Operating Systems, Prentice\nHall, Third edition, 2003.\n\n44\n\n\n--- PAGE 10 ---\n\nCourse Title: Database Management System\nCourse No: CSC260\nNature of the Course: Theory + Lab\nSemester: IV\nFull Marks: $60+20+20$\nPass Marks: $24+8+8$\nCredit Hrs: 3\n\nCourse Description: The course covers the basic concepts of databases, database system\nconcepts and architecture, data modeling using ER diagram, relational model, SQL, relational\nalgebra and calculus, normalization, transaction processing, concurrency control, and database\nrecovery.\n\nCourse Objective: The main objective of this course is to introduce the basic concepts of\ndatabase, data modeling techniques using entity relationship diagram, relational algebra and\ncalculus, basic and advanced features SQL, normalization, transaction processing, concurrency\ncontrol, and recovery techniques.\n\nCourse Contents:\n\nUnit 1: Database and Database Users (2 Hrs.)\nIntroduction; Characteristics of the Database Approach; Actors on the Scene; Workers behind\nthe Scene; Advantages of Using the DBMS Approach\n\nUnit 2: Database System - Concepts and Architecture (3 Hrs.)\nData Models, Schemas, and Instances; Three-Schema Architecture and Data Independence;\nDatabase Languages and Interfaces; the Database System Environment; Centralized and\nClient/Server Architectures for DBMSS; Classification of Database Management Systems\n\nUnit 3: Data Modeling Using the Entity-Relational Model (6 Hrs.)\nUsing High-Level Conceptual Data Models for Database Design; Entity Types, Entity Sets,\nAttributes, and Keys; Relationship Types, Relationship Sets, Roles, and Structural Constraints;\nWeak Entity Types; ER Diagrams, Naming Conventions, and Design Issues; Relationship Types\nof Degree Higher Than Two; Subclasses, Superclasses, and Inheritance; Specialization and\nGeneralization; Constraints and Characteristics of Specialization and Generalization\n\nUnit 4: The Relational Data Model and Relational Database Constraints (3 Hrs.)\nRelational Model Concepts; Relational Model Constraints and Relational Database Schemas;\nUpdate Operations, Transactions, and Dealing with Constraint Violations\n\nUnit 5: The Relational Algebra and Relational Calculus (5 Hrs.)\nUnary Relational Operations: SELECT and PROJECT; Relational Algebra Operations from Set\nTheory; Binary Relational Operations: JOIN and DIVISION; Additional Relational Operations;\nthe Tuple Relational Calculus; the Domain Relational Calculus\n\nUnit 6: SQL (8 Hrs.)\nData Definition and Data Types; Specifying Constraints; Basic Retrieval Queries; Complex\nRetrieval Queries; INSERT, DELETE, and UPDATE Statements; Views\n\n45\n\n\n--- PAGE 11 ---\n\nUnit 7: Relational Database Design (7 Hrs.)\nRelational Database Design Using ER-to-Relational Mapping; Informal Design Guidelines for\nRelational Schemas; Functional Dependencies; Normal Forms Based on Primary Keys; General\nDefinitions of Second and Third Normal Forms; Boyce-Codd Normal Form; Multivalued\nDependency and Fourth Normal Form; Properties of Relational Decomposition\n\nUnit 8: Introduction to Transaction Processing Concepts and Theory (4 Hrs.)\nIntroduction to Transaction Processing; Transaction and System Concepts; Desirable Properties\nof Transactions; Characterizing Schedules Based on Recoverability; Characterizing Schedules\nBased on Serializability\n\nUnit 9: Concurrency Control Techniques (4 Hrs.)\nTwo-Phase Locking Technique; Timestamp Ordering; Multiversion Concurrency Control;\nValidation (Optimistic) Techniques and Snapshot Isolation Concurrency Control\n\nUnit 10: Database Recovery Techniques (3 Hrs.)\nRecovery Concepts; NO-UNDO/REDO Recovery Based on Deferred Update; Recovery\nTechnique Based on Immediate Update; Shadow Paging; Database Backup and Recovery from\nCatastrophic Failures\n\nLaboratory Works:\nThe laboratory work includes writing database programs to create and query databases using\nbasic and advanced features of structured query language (SQL).\n\nText Books:\n1. Fundamentals of Database Systems; Seventh Edition; Ramez Elmasri, Shamkant B. Navathe;\nPearson Education\n2. Database System Concepts; Sixth Edition; Avi Silberschatz, Henry F Korth, S Sudarshan;\nMcGraw-Hill\n\nReference Books:\n1. Database Management Systems; Third Edition; Raghu Ramakrishnan, Johannes Gehrke;\nMcGraw-Hill\n2. A First Course in Database Systems; Jaffrey D. Ullman, Jennifer Widom; Third Edition;\nPearson Education Limited\n\n46\n\n\n--- PAGE 12 ---\n\nCourse Title: Artificial Intelligence\nCourse No: CSC261\nNature of the Course: Theory + Lab\nSemester: IV\nFull Marks: $60+20+20$\nPass Marks: $24+8+8$\nCredit Hrs: 3\n\nCourse Description: The course introduces the ideas and techniques underlying the principles\nand design of artificial intelligent systems. The course covers the basics and applications of AI,\nincluding: design of intelligent agents, problem solving, searching, knowledge representation\nsystems, probabilistic reasoning, neural networks, machine learning and natural language\nprocessing.\n\nCourse Objectives: The main objective of the course is to introduce fundamental concepts of\nArtificial Intelligence. The general objectives are to learn about computer systems that exhibit\nintelligent behavior, design intelligent agents, identify Al problems and solve the problems,\ndesign knowledge representation and expert systems, design neural networks for solving\nproblems, identify different machine learning paradigms and identify their practical applications.\n\nCourse Contents:\n\nUnit I: Introduction (3 Hrs.)\n1.1. Artificial Intelligence (AI), AI Perspectives: acting and thinking humanly, acting and\nthinking rationally\n1.2. History of AI\n1.3. Foundations of AI\n1.4. Applications of Al\n\nUnit II: Intelligent Agents (4 Hrs.)\n2.1. Introduction of agents, Structure of Intelligent agent, Properties of Intelligent Agents\n2.2. Configuration of Agents, PEAS description of Agents\n2.3. Types of Agents: Simple Reflexive, Model Based, Goal Based, Utility Based.\n2.4. Environment Types: Deterministic, Stochastic, Static, Dynamic, Observable, Semi-\nobservable, Single Agent, Multi Agent\n\nUnit III: Problem Solving by Searching (9 Hrs.)\n3.1. Definition, Problem as a state space search, Problem formulation, Well-defined\nproblems,\n3.2. Solving Problems by Searching, Search Strategies, Performance evaluation of search\ntechniques\n3.3. Uninformed Search: Depth First Search, Breadth First Search, Depth Limited Search,\nIterative Deepening Search, Bidirectional Search\n3.4. Informed Search: Greedy Best first search, $A^\x7b*\x7d$ search, Hill Climbing, Simulated\nAnnealing\n3.5. Game playing, Adversarial search techniques, Mini-max Search, Alpha-Beta Pruning.\n3.6. Constraint Satisfaction Problems\n\n47\n\n\n--- PAGE 13 ---\n\nUnit IV: Knowledge Representation (14 Hrs.)\n4.1. Definition and importance of Knowledge, Issues in Knowledge Representation,\nKnowledge Representation Systems, Properties of Knowledge Representation Systems.\n4.2. Types of Knowledge Representation Systems: Semantic Nets, Frames, Conceptual\nDependencies, Scripts, Rule Based Systems, Propositional Logic, Predicate Logic\n4.3. Propositional Logic(PL): Syntax, Semantics, Formal logic-connectives, truth tables,\ntautology, validity, well-formed-formula, Inference using Resolution, Backward\nChaining and Forward Chaining\n4.4. Predicate Logic: FOPL, Syntax, Semantics, Quantification, Inference with FOPL: By\nconverting into PL (Existential and universal instantiation), Unification and lifting,\nInference using resolution\n4.5. Handling Uncertain Knowledge, Radom Variables, Prior and Posterior Probability,\nInference using Full Joint Distribution, Bayes' Rule and its use, Bayesian Networks,\nReasoning in Belief Networks\n4.6. Fuzzy Logic\n\nUnit V: Machine Learning (9 Hrs.)\n5.1. Introduction to Machine Learning, Concepts of Learning, Supervised, Unsupervised and\nReinforcement Learning\n5.2. Statistical-based Learning: Naive Bayes Model\n5.3. Learning by Genetic Algorithm\n5.4. Learning with Neural Networks: Introduction, Biological Neural Networks Vs. Artificial\nNeural Networks (ANN), Mathematical Model of ANN, Types of ANN: Feed-forward,\nRecurrent, Single Layered, Multi-Layered, Application of Artificial Neural Networks,\nLearning by Training ANN, Supervised vs. Unsupervised Learning, Hebbian Learning,\nPerceptron Learning, Back-propagation Learning\n\nUnit VI: Applications of AI (6 Hrs.)\n6.1. Expert Systems, Development of Expert Systems\n6.2. Natural Language Processing: Natural Language Understanding and Natural Language\nGeneration, Steps of Natural Language Processing\n6.3. Machine Vision Concepts\n6.4. Robotics\n\nLaboratory Works:\nThe laboratory work consists of design and implementation of intelligent agents and expert\nsystems, searching techniques, knowledge representation systems and machine learning\ntechniques. Students are also advised to implement Neural Networks, Genetic Algorithms for\nsolving practical problems of AI. Students are advised to use LISP, PROLOG, or any other high\nlevel language.\n\nText Books:\n1. Stuart Russel and Peter Norvig, Artificial Intelligence A Modern Approach, Pearson\n\n48\n\n\n--- PAGE 14 ---\n\nReference Books:\n1. E. Rich, K. Knight, Shivashankar B. Nair, Artificial Intelligence, Tata McGraw Hill.\n2. George F. Luger, Artificial Intelligence: Structures and Strategies for Complex Problem\nSolving, Benjamin/Cummings Publication\n3. D. W. Patterson, Artificial Intelligence and Expert Systems, Prentice Hall.\n4. P. H. Winston, Artificial Intelligence, Addison Wesley.\n\n49\n"

/-- The first line of a (possibly multi-line) stored text. -/
def firstLine (l : List Char) : List Char := l.takeWhile (fun c => c ≠ '\n')

/-- Title, `Course No` detail and unit count of each parsed record, in
order: the observable shape the spec's concrete scenario talks about. -/
def courseSummary (r : List (List Char × CourseRec)) :
    List (String × Option String × Nat) :=
  r.map (fun p => (String.mk p.1, (dlookup "Course No" p.2.details).map String.mk,
    p.2.units.length))

/-- Termination measure of the scan loop: the line cursor can stand still
only on an iteration that empties a nonempty unit buffer. -/
def pMeasure (len : Nat) (st : PState) : Nat :=
  2 * (len - st.lineIdx) + (if st.currentUnit.isEmpty then 0 else 1)

/-- Modelled from the spec's stop list for the lab-work scan (sentence on
"two consecutive blank lines / Books heading / Course Title line /
heuristic-title line followed within one line by Course No"): does the
scan stop when it looks at line `t`? -/
def labStops (lines : List (List Char)) (len start t : Nat) : Bool :=
  let lt := pyStrip (lines.getD t [])
  (lt.isEmpty && decide (start < t) && (pyStrip (lines.getD (t - 1) [])).isEmpty) ||
    books_start_re lt || (course_title_pattern lt).isSome ||
    ((general_title_pattern lt).isSome && decide (t + 1 < len) &&
      hasPref "Course No:".data (pyStrip (lines.getD (t + 1) [])))

/-- Modelled from the spec: the least `t ≥ start` with `labStops`, and
`len` when no line in `[start, len)` stops the scan. -/
def labTerminatorAux (lines : List (List Char)) (len start : Nat) :
    Nat → Nat → Nat
  | 0, t => t
  | fuel + 1, t =>
    if labStops lines len start t then t
    else labTerminatorAux lines len start fuel (t + 1)

/-- Modelled from the spec: the index of the line that terminates the
lab-work scan started at `start`. -/
def labTerminator (lines : List (List Char)) (len start : Nat) : Nat :=
  labTerminatorAux lines len start (len - start) start

/-- Counterexample input for the section-start claim: the third line
starts with `Course Contents:` but is not exactly it. -/
def ccText : String :=
  "Course Title: Alpha Beta\nCourse No: CSC101\nCourse Contents: Overview\nUnit I: Things\n1.1 stuff"

/-- Counterexample input for the explicit-title claim: the detail keyword
`Semester:` sits on the `Course Title:` line itself, and on none of the
three lines after it. -/
def kwText : String :=
  "Course Title: Foo Semester: Bar\nCourse Contents:\nUnit I: A\nEnd"

/-- Input with a details block holding only `Course No` and `Semester`,
in that order. -/
def twoDetailTextA : String :=
  "Course Title: Gamma Delta\nCourse No: CSC260\nSemester: IV"

/-- The same two detail lines in the opposite order. -/
def twoDetailTextB : String :=
  "Course Title: Gamma Delta\nSemester: IV\nCourse No: CSC260"

/-- Input with three units with distinct bodies, in source order. -/
def threeUnitText : String :=
  "Course Title: Epsilon Zeta\nCourse No: CSC300\nCourse Contents:\nUnit I: One\nA\nUnit II: Two\nB\nUnit III: Three\nC"

/-- A one-line document and a state used to exhibit the section-start
behaviour of `step` at a concrete input. -/
def ccStepLines : List (List Char) := ["Course Contents: Overview".data]

/-- The state before the section-start line: one course, empty buffer. -/
def ccStepState : PState :=
  ⟨[("Xy".data, emptyRec)], some "Xy".data, false, [], 0⟩

/-- A two-line document whose second line holds a detail keyword, for the
explicit-title window behaviour at a concrete input. -/
def kwWinLines : List (List Char) :=
  ["Course Title: Abc".data, "Course No: C1".data]


/-- Well-formedness of a stored unit text: stripped, nonempty, first line
a unit heading. -/
def UnitGood (u : List Char) : Prop :=
  pyStrip u = u ∧ u ≠ [] ∧ unit_start_re (firstLine u) = true

/-- A line fit for the unit buffer: nonempty, stripped, single-line. -/
def LineGood (l : List Char) : Prop :=
  l ≠ [] ∧ pyStrip l = l ∧ '\n' ∉ l

/-- The unit buffer is empty or starts with a unit-heading line, all its
lines good. -/
def BufGood : List (List Char) → Prop
  | [] => True
  | l :: rest => unit_start_re l = true ∧ LineGood l ∧ ∀ x ∈ rest, LineGood x

/-- The dictionary invariant: distinct nonempty keys, well-formed units. -/
def DataGood (d : List (List Char × CourseRec)) : Prop :=
  (d.map Prod.fst).Nodup ∧ (∀ p ∈ d, p.1 ≠ []) ∧
    ∀ p ∈ d, ∀ u ∈ p.2.units, UnitGood u

/-- The loop invariant of the scan. -/
def InvGood (st : PState) : Prop :=
  DataGood st.data ∧ (∀ s, st.currentSubject = some s → s ≠ []) ∧
    BufGood st.currentUnit

/-- The chunk runner: `some` of the state after `n` iterations when the
cursor stays inside the line list throughout, `none` when the loop would
have stopped within these `n` iterations. -/
def runChunk (lines : List (List Char)) (len : Nat) : Nat → PState → Option PState
  | 0, st => some st
  | n + 1, st => if st.lineIdx < len then runChunk lines len n (step lines len st) else none

/-- The fixture's line list. -/
def pdfLines : List (List Char) := splitLines pdf_text.data

/-- The parser state after 100 iterations of the scan loop on the fixture. -/
def sChunk1 : PState :=
  ⟨[("Theory of Computation".data,
  ⟨["Unit I: Basic Foundations (3 Hrs.)\n1.1. Review of Set Theory, Logic, Functions, Proofs\n1.2. Automata, Computability and Complexity: Complexity Theory, Computability Theory,\nAutomata Theory\n1.3. Basic concepts of Automata Theory: Alphabets, Power of Alphabet, Kleen Closure\nAlphabet, Positive Closure of Alphabet, Strings, Empty String, Substring of a string,\nConcatenation of strings, Languages, Empty Language".data, "Unit II: Introduction to Finite Automata (8 Hrs.)\n2.1 Introduction to Finite Automata, Introduction of Finite State Machine\n2.2 Deterministic Finite Automata (DFA), Notations for DFA, Language of DFA, Extended\nTransition Function of DFA Non-Deterministic Finite Automaton (NFA), Notations for\nNFA, Language of NFA, Extended Transition\n2.3 Equivalence of DFA and NFA, Subset-Construction\n2.4 Method for reduction of NFA to DFA, Theorems for equivalence of Language accepted\nby DFA and NFA\n2.5 Finite Automaton with Epsilon Transition (Œµ - NFA), Notations for  NFA, Epsilon\nClosure of a State, Extended Transition Function of  NFA, Removing Epsilon\nTransition using the concept of Epsilon Closure, Equivalence of NFA and  -NFA,\nEquivalence of DFA and  - NFA\n2.6 Finite State Machines with output: Moore machine and Mealy Machines".data, "Unit III: Regular Expressions (6 Hrs.)\n3.1 Regular Expressions, Regular Operators, Regular Languages and their applications,\nAlgebraic Rules for Regular Expressions\n36\n--- PAGE 2 ---\n3.2 Equivalence of Regular Expression and Finite Automata, Reduction of Regular\nExpression to  ‚Äì NFA, Conversion of DFA to Regular Expression\n3.3 Properties of Regular Languages, Pumping Lemma, Application of Pumping Lemma,\nClosure Properties of Regular Languages over (Union, Intersection, Complement)\nMinimization of Finite State Machines: Table Filling Algorithm".data, "Unit IV: Context Free Grammar (9 Hrs.)\n4.1 Introduction to Context Free Grammar (CFG), Components of CFG, Use of CFG,\nContext Free Language (CFL)\n4.2 Types of derivations: Bottomup and Topdown approach, Leftmost and Rightmost,\nLanguage of a grammar\n4.3 Parse tree and its construction, Ambiguous grammar, Use of parse tree to show ambiguity\nin grammar\n4.4 Regular Grammars: Right Linear and Left Linear, Equivalence of regular grammar and\nfinite automata\n4.5 Simplification of CFG: Removal of Useless symbols, Nullable Symbols, and Unit\nProductions, Chomsky Normal Form (CNF), Greibach Normal Form (GNF), Backus-\nNaur Form (BNF)\n4.6 Context Sensitive Grammar, Chomsky Hierarchy Pumping Lemma for CFL, Application\nof Pumping Lemma, Closure Properties of CFL".data, "Unit V: Push Down Automata (7 Hrs.)\n5.1 Introduction to Push Down Automata (PDA), Representation of PDA, Operations of\nPDA, Move of a PDA, Instantaneous Description for PDA\n5.2 Deterministic PDA, Non Deterministic PDA, Acceptance of strings by PDA, Language\nof PDA\n5.3 Construction of PDA by Final State, Construction of PDA by Empty Stack,\n5.4 Conversion of PDA by Final State to PDA accepting by Empty Stack and vice-versa,\nConversion of CFG to PDA, Conversion of PDA to CFG".data],
   "".data,
   [("Course No", "CSC257".data), ("Credit Hrs", "3".data), ("Semester", "IV".data), ("Full Marks", "$60+20+20$".data), ("Pass Marks", "$24+8+8$".data), ("Nature", "Theory + Lab".data)]⟩)],
  some ("Theory of Computation".data), true,
  ["Unit VI: Turing Machines (10 Hrs.)".data, "6.1 Introduction to Turing Machines (TM), Notations of Turing Machine, Language of a".data, "Turing Machine, Instantaneous Description for Turing Machine, Acceptance of a string".data, "by a Turing Machines".data, "6.2 Turing Machine as a Language Recognizer, Turing Machine as a Computing Function,".data, "Turing Machine with Storage in its State, Turing Machine as a enumerator of stings of a".data, "language, Turing Machine as Subroutine".data, "6.3 Turing Machine with Multiple Tracks, Turing Machine with Multiple Tapes, Equivalence".data, "of Multitape-TM and Multitrack-TM, Non-Deterministic Turing Machines, Restricted".data, "Turing Machines: With Semi-infinite Tape, Multistack Machines, Counter Machines".data, "6.4 Curch Turing Thesis, Universal Turing Machine, Turing Machine and Computers,".data, "Encoding of Turing Machine, Enumerating Binary Strings, Codes of Turing Machine,".data, "Universal Turing Machine for encoding of Turing Machine".data], 100⟩

/-- The parser state after 200 iterations of the scan loop on the fixture. -/
def sChunk2 : PState :=
  ⟨[("Theory of Computation".data,
  ⟨["Unit I: Basic Foundations (3 Hrs.)\n1.1. Review of Set Theory, Logic, Functions, Proofs\n1.2. Automata, Computability and Complexity: Complexity Theory, Computability Theory,\nAutomata Theory\n1.3. Basic concepts of Automata Theory: Alphabets, Power of Alphabet, Kleen Closure\nAlphabet, Positive Closure of Alphabet, Strings, Empty String, Substring of a string,\nConcatenation of strings, Languages, Empty Language".data, "Unit II: Introduction to Finite Automata (8 Hrs.)\n2.1 Introduction to Finite Automata, Introduction of Finite State Machine\n2.2 Deterministic Finite Automata (DFA), Notations for DFA, Language of DFA, Extended\nTransition Function of DFA Non-Deterministic Finite Automaton (NFA), Notations for\nNFA, Language of NFA, Extended Transition\n2.3 Equivalence of DFA and NFA, Subset-Construction\n2.4 Method for reduction of NFA to DFA, Theorems for equivalence of Language accepted\nby DFA and NFA\n2.5 Finite Automaton with Epsilon Transition (Œµ - NFA), Notations for  NFA, Epsilon\nClosure of a State, Extended Transition Function of  NFA, Removing Epsilon\nTransition using the concept of Epsilon Closure, Equivalence of NFA and  -NFA,\nEquivalence of DFA and  - NFA\n2.6 Finite State Machines with output: Moore machine and Mealy Machines".data, "Unit III: Regular Expressions (6 Hrs.)\n3.1 Regular Expressions, Regular Operators, Regular Languages and their applications,\nAlgebraic Rules for Regular Expressions\n36\n--- PAGE 2 ---\n3.2 Equivalence of Regular Expression and Finite Automata, Reduction of Regular\nExpression to  ‚Äì NFA, Conversion of DFA to Regular Expression\n3.3 Properties of Regular Languages, Pumping Lemma, Application of Pumping Lemma,\nClosure Properties of Regular Languages over (Union, Intersection, Complement)\nMinimization of Finite State Machines: Table Filling Algorithm".data, "Unit IV: Context Free Grammar (9 Hrs.)\n4.1 Introduction to Context Free Grammar (CFG), Components of CFG, Use of CFG,\nContext Free Language (CFL)\n4.2 Types of derivations: Bottomup and Topdown approach, Leftmost and Rightmost,\nLanguage of a grammar\n4.3 Parse tree and its construction, Ambiguous grammar, Use of parse tree to show ambiguity\nin grammar\n4.4 Regular Grammars: Right Linear and Left Linear, Equivalence of regular grammar and\nfinite automata\n4.5 Simplification of CFG: Removal of Useless symbols, Nullable Symbols, and Unit\nProductions, Chomsky Normal Form (CNF), Greibach Normal Form (GNF), Backus-\nNaur Form (BNF)\n4.6 Context Sensitive Grammar, Chomsky Hierarchy Pumping Lemma for CFL, Application\nof Pumping Lemma, Closure Properties of CFL".data, "Unit V: Push Down Automata (7 Hrs.)\n5.1 Introduction to Push Down Automata (PDA), Representation of PDA, Operations of\nPDA, Move of a PDA, Instantaneous Description for PDA\n5.2 Deterministic PDA, Non Deterministic PDA, Acceptance of strings by PDA, Language\nof PDA\n5.3 Construction of PDA by Final State, Construction of PDA by Empty Stack,\n5.4 Conversion of PDA by Final State to PDA accepting by Empty Stack and vice-versa,\nConversion of CFG to PDA, Conversion of PDA to CFG".data, "Unit VI: Turing Machines (10 Hrs.)\n6.1 Introduction to Turing Machines (TM), Notations of Turing Machine, Language of a\nTuring Machine, Instantaneous Description for Turing Machine, Acceptance of a string\nby a Turing Machines\n6.2 Turing Machine as a Language Recognizer, Turing Machine as a Computing Function,\nTuring Machine with Storage in its State, Turing Machine as a enumerator of stings of a\nlanguage, Turing Machine as Subroutine\n6.3 Turing Machine with Multiple Tracks, Turing Machine with Multiple Tapes, Equivalence\nof Multitape-TM and Multitrack-TM, Non-Deterministic Turing Machines, Restricted\nTuring Machines: With Semi-infinite Tape, Multistack Machines, Counter Machines\n6.4 Curch Turing Thesis, Universal Turing Machine, Turing Machine and Computers,\nEncoding of Turing Machine, Enumerating Binary Strings, Codes of Turing Machine,\nUniversal Turing Machine for encoding of Turing Machine\n37\n--- PAGE 3 ---".data, "Unit VII: Undecidability and Intractability (5 Hrs.)\n7.1 Computational Complexity, Time and Space complexity of A Turing Machine,\nIntractability\n7.2 Complexity Classes, Problem and its types: Absract, Decision, Optimization\n7.3 Reducibility, Turing Reducible, Circuit Satisfiability, Cook's Theorem,\n7.4 Undecidability, Undecidable Problems: Post's Correspondence Problem, Halting\nProblem and its proof, Undecidable Problem about Turing Machines".data],
   "The laboratory work consists of design and implementation of finite state machines like DFA,\nNFA, PDA, and Turing Machine. Students are highly recommended to construct Tokenizers/\nLexers over/for some language. Students are advised to use regex and Perl (for using regular\nexpressions), or any other higher level language for the laboratory works.".data,
   [("Course No", "CSC257".data), ("Credit Hrs", "3".data), ("Semester", "IV".data), ("Full Marks", "$60+20+20$".data), ("Pass Marks", "$24+8+8$".data), ("Nature", "Theory + Lab".data)]⟩),
  ("Computer Networks".data,
  ⟨[],
   "".data,
   [("Course No", "CSC258".data), ("Credit Hrs", "3".data), ("Semester", "IV".data), ("Full Marks", "$60+20+20$".data), ("Pass Marks", "$24+8+8$".data), ("Nature", "Theory + Lab".data)]⟩)],
  some ("Computer Networks".data), true,
  [], 205⟩

/-- The parser state after 300 iterations of the scan loop on the fixture. -/
def sChunk3 : PState :=
  ⟨[("Theory of Computation".data,
  ⟨["Unit I: Basic Foundations (3 Hrs.)\n1.1. Review of Set Theory, Logic, Functions, Proofs\n1.2. Automata, Computability and Complexity: Complexity Theory, Computability Theory,\nAutomata Theory\n1.3. Basic concepts of Automata Theory: Alphabets, Power of Alphabet, Kleen Closure\nAlphabet, Positive Closure of Alphabet, Strings, Empty String, Substring of a string,\nConcatenation of strings, Languages, Empty Language".data, "Unit II: Introduction to Finite Automata (8 Hrs.)\n2.1 Introduction to Finite Automata, Introduction of Finite State Machine\n2.2 Deterministic Finite Automata (DFA), Notations for DFA, Language of DFA, Extended\nTransition Function of DFA Non-Deterministic Finite Automaton (NFA), Notations for\nNFA, Language of NFA, Extended Transition\n2.3 Equivalence of DFA and NFA, Subset-Construction\n2.4 Method for reduction of NFA to DFA, Theorems for equivalence of Language accepted\nby DFA and NFA\n2.5 Finite Automaton with Epsilon Transition (Œµ - NFA), Notations for  NFA, Epsilon\nClosure of a State, Extended Transition Function of  NFA, Removing Epsilon\nTransition using the concept of Epsilon Closure, Equivalence of NFA and  -NFA,\nEquivalence of DFA and  - NFA\n2.6 Finite State Machines with output: Moore machine and Mealy Machines".data, "Unit III: Regular Expressions (6 Hrs.)\n3.1 Regular Expressions, Regular Operators, Regular Languages and their applications,\nAlgebraic Rules for Regular Expressions\n36\n--- PAGE 2 ---\n3.2 Equivalence of Regular Expression and Finite Automata, Reduction of Regular\nExpression to  ‚Äì NFA, Conversion of DFA to Regular Expression\n3.3 Properties of Regular Languages, Pumping Lemma, Application of Pumping Lemma,\nClosure Properties of Regular Languages over (Union, Intersection, Complement)\nMinimization of Finite State Machines: Table Filling Algorithm".data, "Unit IV: Context Free Grammar (9 Hrs.)\n4.1 Introduction to Context Free Grammar (CFG), Components of CFG, Use of CFG,\nContext Free Language (CFL)\n4.2 Types of derivations: Bottomup and Topdown approach, Leftmost and Rightmost,\nLanguage of a grammar\n4.3 Parse tree and its construction, Ambiguous grammar, Use of parse tree to show ambiguity\nin grammar\n4.4 Regular Grammars: Right Linear and Left Linear, Equivalence of regular grammar and\nfinite automata\n4.5 Simplification of CFG: Removal of Useless symbols, Nullable Symbols, and Unit\nProductions, Chomsky Normal Form (CNF), Greibach Normal Form (GNF), Backus-\nNaur Form (BNF)\n4.6 Context Sensitive Grammar, Chomsky Hierarchy Pumping Lemma for CFL, Application\nof Pumping Lemma, Closure Properties of CFL".data, "Unit V: Push Down Automata (7 Hrs.)\n5.1 Introduction to Push Down Automata (PDA), Representation of PDA, Operations of\nPDA, Move of a PDA, Instantaneous Description for PDA\n5.2 Deterministic PDA, Non Deterministic PDA, Acceptance of strings by PDA, Language\nof PDA\n5.3 Construction of PDA by Final State, Construction of PDA by Empty Stack,\n5.4 Conversion of PDA by Final State to PDA accepting by Empty Stack and vice-versa,\nConversion of CFG to PDA, Conversion of PDA to CFG".data, "Unit VI: Turing Machines (10 Hrs.)\n6.1 Introduction to Turing Machines (TM), Notations of Turing Machine, Language of a\nTuring Machine, Instantaneous Description for Turing Machine, Acceptance of a string\nby a Turing Machines\n6.2 Turing Machine as a Language Recognizer, Turing Machine as a Computing Function,\nTuring Machine with Storage in its State, Turing Machine as a enumerator of stings of a\nlanguage, Turing Machine as Subroutine\n6.3 Turing Machine with Multiple Tracks, Turing Machine with Multiple Tapes, Equivalence\nof Multitape-TM and Multitrack-TM, Non-Deterministic Turing Machines, Restricted\nTuring Machines: With Semi-infinite Tape, Multistack Machines, Counter Machines\n6.4 Curch Turing Thesis, Universal Turing Machine, Turing Machine and Computers,\nEncoding of Turing Machine, Enumerating Binary Strings, Codes of Turing Machine,\nUniversal Turing Machine for encoding of Turing Machine\n37\n--- PAGE 3 ---".data, "Unit VII: Undecidability and Intractability (5 Hrs.)\n7.1 Computational Complexity, Time and Space complexity of A Turing Machine,\nIntractability\n7.2 Complexity Classes, Problem and its types: Absract, Decision, Optimization\n7.3 Reducibility, Turing Reducible, Circuit Satisfiability, Cook's Theorem,\n7.4 Undecidability, Undecidable Problems: Post's Correspondence Problem, Halting\nProblem and its proof, Undecidable Problem about Turing Machines".data],
   "The laboratory work consists of design and implementation of finite state machines like DFA,\nNFA, PDA, and Turing Machine. Students are highly recommended to construct Tokenizers/\nLexers over/for some language. Students are advised to use regex and Perl (for using regular\nexpressions), or any other higher level language for the laboratory works.".data,
   [("Course No", "CSC257".data), ("Credit Hrs", "3".data), ("Semester", "IV".data), ("Full Marks", "$60+20+20$".data), ("Pass Marks", "$24+8+8$".data), ("Nature", "Theory + Lab".data)]⟩),
  ("Computer Networks".data,
  ⟨[],
   "The lab activities under this subject should accommodate at least the following;\n1. Understanding of Network equipment, wiring in details\n2. OS (Ubuntu/CentOS/Windows) installation, practice on basic Networking commands\n40".data,
   [("Course No", "CSC258".data), ("Credit Hrs", "3".data), ("Semester", "IV".data), ("Full Marks", "$60+20+20$".data), ("Pass Marks", "$24+8+8$".data), ("Nature", "Theory + Lab".data)]⟩),
  ("Operating Systems".data,
  ⟨[],
   "".data,
   [("Course No", "CSC259".data), ("Credit Hrs", "3".data), ("Semester", "IV".data), ("Full Marks", "$60+20+20$".data), ("Pass Marks", "24+8+8".data), ("Nature", "Theory + Lab".data)]⟩)],
  some ("Operating Systems".data), true,
  [], 311⟩

/-- The parser state after 400 iterations of the scan loop on the fixture. -/
def sChunk4 : PState :=
  ⟨[("Theory of Computation".data,
  ⟨["Unit I: Basic Foundations (3 Hrs.)\n1.1. Review of Set Theory, Logic, Functions, Proofs\n1.2. Automata, Computability and Complexity: Complexity Theory, Computability Theory,\nAutomata Theory\n1.3. Basic concepts of Automata Theory: Alphabets, Power of Alphabet, Kleen Closure\nAlphabet, Positive Closure of Alphabet, Strings, Empty String, Substring of a string,\nConcatenation of strings, Languages, Empty Language".data, "Unit II: Introduction to Finite Automata (8 Hrs.)\n2.1 Introduction to Finite Automata, Introduction of Finite State Machine\n2.2 Deterministic Finite Automata (DFA), Notations for DFA, Language of DFA, Extended\nTransition Function of DFA Non-Deterministic Finite Automaton (NFA), Notations for\nNFA, Language of NFA, Extended Transition\n2.3 Equivalence of DFA and NFA, Subset-Construction\n2.4 Method for reduction of NFA to DFA, Theorems for equivalence of Language accepted\nby DFA and NFA\n2.5 Finite Automaton with Epsilon Transition (Œµ - NFA), Notations for  NFA, Epsilon\nClosure of a State, Extended Transition Function of  NFA, Removing Epsilon\nTransition using the concept of Epsilon Closure, Equivalence of NFA and  -NFA,\nEquivalence of DFA and  - NFA\n2.6 Finite State Machines with output: Moore machine and Mealy Machines".data, "Unit III: Regular Expressions (6 Hrs.)\n3.1 Regular Expressions, Regular Operators, Regular Languages and their applications,\nAlgebraic Rules for Regular Expressions\n36\n--- PAGE 2 ---\n3.2 Equivalence of Regular Expression and Finite Automata, Reduction of Regular\nExpression to  ‚Äì NFA, Conversion of DFA to Regular Expression\n3.3 Properties of Regular Languages, Pumping Lemma, Application of Pumping Lemma,\nClosure Properties of Regular Languages over (Union, Intersection, Complement)\nMinimization of Finite State Machines: Table Filling Algorithm".data, "Unit IV: Context Free Grammar (9 Hrs.)\n4.1 Introduction to Context Free Grammar (CFG), Components of CFG, Use of CFG,\nContext Free Language (CFL)\n4.2 Types of derivations: Bottomup and Topdown approach, Leftmost and Rightmost,\nLanguage of a grammar\n4.3 Parse tree and its construction, Ambiguous grammar, Use of parse tree to show ambiguity\nin grammar\n4.4 Regular Grammars: Right Linear and Left Linear, Equivalence of regular grammar and\nfinite automata\n4.5 Simplification of CFG: Removal of Useless symbols, Nullable Symbols, and Unit\nProductions, Chomsky Normal Form (CNF), Greibach Normal Form (GNF), Backus-\nNaur Form (BNF)\n4.6 Context Sensitive Grammar, Chomsky Hierarchy Pumping Lemma for CFL, Application\nof Pumping Lemma, Closure Properties of CFL".data, "Unit V: Push Down Automata (7 Hrs.)\n5.1 Introduction to Push Down Automata (PDA), Representation of PDA, Operations of\nPDA, Move of a PDA, Instantaneous Description for PDA\n5.2 Deterministic PDA, Non Deterministic PDA, Acceptance of strings by PDA, Language\nof PDA\n5.3 Construction of PDA by Final State, Construction of PDA by Empty Stack,\n5.4 Conversion of PDA by Final State to PDA accepting by Empty Stack and vice-versa,\nConversion of CFG to PDA, Conversion of PDA to CFG".data, "Unit VI: Turing Machines (10 Hrs.)\n6.1 Introduction to Turing Machines (TM), Notations of Turing Machine, Language of a\nTuring Machine, Instantaneous Description for Turing Machine, Acceptance of a string\nby a Turing Machines\n6.2 Turing Machine as a Language Recognizer, Turing Machine as a Computing Function,\nTuring Machine with Storage in its State, Turing Machine as a enumerator of stings of a\nlanguage, Turing Machine as Subroutine\n6.3 Turing Machine with Multiple Tracks, Turing Machine with Multiple Tapes, Equivalence\nof Multitape-TM and Multitrack-TM, Non-Deterministic Turing Machines, Restricted\nTuring Machines: With Semi-infinite Tape, Multistack Machines, Counter Machines\n6.4 Curch Turing Thesis, Universal Turing Machine, Turing Machine and Computers,\nEncoding of Turing Machine, Enumerating Binary Strings, Codes of Turing Machine,\nUniversal Turing Machine for encoding of Turing Machine\n37\n--- PAGE 3 ---".data, "Unit VII: Undecidability and Intractability (5 Hrs.)\n7.1 Computational Complexity, Time and Space complexity of A Turing Machine,\nIntractability\n7.2 Complexity Classes, Problem and its types: Absract, Decision, Optimization\n7.3 Reducibility, Turing Reducible, Circuit Satisfiability, Cook's Theorem,\n7.4 Undecidability, Undecidable Problems: Post's Correspondence Problem, Halting\nProblem and its proof, Undecidable Problem about Turing Machines".data],
   "The laboratory work consists of design and implementation of finite state machines like DFA,\nNFA, PDA, and Turing Machine. Students are highly recommended to construct Tokenizers/\nLexers over/for some language. Students are advised to use regex and Perl (for using regular\nexpressions), or any other higher level language for the laboratory works.".data,
   [("Course No", "CSC257".data), ("Credit Hrs", "3".data), ("Semester", "IV".data), ("Full Marks", "$60+20+20$".data), ("Pass Marks", "$24+8+8$".data), ("Nature", "Theory + Lab".data)]⟩),
  ("Computer Networks".data,
  ⟨[],
   "The lab activities under this subject should accommodate at least the following;\n1. Understanding of Network equipment, wiring in details\n2. OS (Ubuntu/CentOS/Windows) installation, practice on basic Networking commands\n40".data,
   [("Course No", "CSC258".data), ("Credit Hrs", "3".data), ("Semester", "IV".data), ("Full Marks", "$60+20+20$".data), ("Pass Marks", "$24+8+8$".data), ("Nature", "Theory + Lab".data)]⟩),
  ("Operating Systems".data,
  ⟨[],
   "The laboratory work includes solving problems in operating system. The lab work should include\nat least;\nLearn basic Linux Commands\nCreate process, threads and implement IPC techniques\nSimulate process Scheduling algorithms and deadlock detection algorithms\nSimulate page replacement algorithms\nSimulate free space management techniques and disk scheduling algorithms.\n43".data,
   [("Course No", "CSC259".data), ("Credit Hrs", "3".data), ("Semester", "IV".data), ("Full Marks", "$60+20+20$".data), ("Pass Marks", "24+8+8".data), ("Nature", "Theory + Lab".data)]⟩),
  ("Database Management System".data,
  ⟨[],
   "".data,
   [("Course No", "CSC260".data), ("Credit Hrs", "3".data), ("Semester", "IV".data), ("Full Marks", "$60+20+20$".data), ("Pass Marks", "$24+8+8$".data), ("Nature", "Theory + Lab".data)]⟩)],
  some ("Database Management System".data), true,
  [], 421⟩

/-- The parser state after 500 iterations of the scan loop on the fixture. -/
def sChunk5 : PState :=
  ⟨[("Theory of Computation".data,
  ⟨["Unit I: Basic Foundations (3 Hrs.)\n1.1. Review of Set Theory, Logic, Functions, Proofs\n1.2. Automata, Computability and Complexity: Complexity Theory, Computability Theory,\nAutomata Theory\n1.3. Basic concepts of Automata Theory: Alphabets, Power of Alphabet, Kleen Closure\nAlphabet, Positive Closure of Alphabet, Strings, Empty String, Substring of a string,\nConcatenation of strings, Languages, Empty Language".data, "Unit II: Introduction to Finite Automata (8 Hrs.)\n2.1 Introduction to Finite Automata, Introduction of Finite State Machine\n2.2 Deterministic Finite Automata (DFA), Notations for DFA, Language of DFA, Extended\nTransition Function of DFA Non-Deterministic Finite Automaton (NFA), Notations for\nNFA, Language of NFA, Extended Transition\n2.3 Equivalence of DFA and NFA, Subset-Construction\n2.4 Method for reduction of NFA to DFA, Theorems for equivalence of Language accepted\nby DFA and NFA\n2.5 Finite Automaton with Epsilon Transition (Œµ - NFA), Notations for  NFA, Epsilon\nClosure of a State, Extended Transition Function of  NFA, Removing Epsilon\nTransition using the concept of Epsilon Closure, Equivalence of NFA and  -NFA,\nEquivalence of DFA and  - NFA\n2.6 Finite State Machines with output: Moore machine and Mealy Machines".data, "Unit III: Regular Expressions (6 Hrs.)\n3.1 Regular Expressions, Regular Operators, Regular Languages and their applications,\nAlgebraic Rules for Regular Expressions\n36\n--- PAGE 2 ---\n3.2 Equivalence of Regular Expression and Finite Automata, Reduction of Regular\nExpression to  ‚Äì NFA, Conversion of DFA to Regular Expression\n3.3 Properties of Regular Languages, Pumping Lemma, Application of Pumping Lemma,\nClosure Properties of Regular Languages over (Union, Intersection, Complement)\nMinimization of Finite State Machines: Table Filling Algorithm".data, "Unit IV: Context Free Grammar (9 Hrs.)\n4.1 Introduction to Context Free Grammar (CFG), Components of CFG, Use of CFG,\nContext Free Language (CFL)\n4.2 Types of derivations: Bottomup and Topdown approach, Leftmost and Rightmost,\nLanguage of a grammar\n4.3 Parse tree and its construction, Ambiguous grammar, Use of parse tree to show ambiguity\nin grammar\n4.4 Regular Grammars: Right Linear and Left Linear, Equivalence of regular grammar and\nfinite automata\n4.5 Simplification of CFG: Removal of Useless symbols, Nullable Symbols, and Unit\nProductions, Chomsky Normal Form (CNF), Greibach Normal Form (GNF), Backus-\nNaur Form (BNF)\n4.6 Context Sensitive Grammar, Chomsky Hierarchy Pumping Lemma for CFL, Application\nof Pumping Lemma, Closure Properties of CFL".data, "Unit V: Push Down Automata (7 Hrs.)\n5.1 Introduction to Push Down Automata (PDA), Representation of PDA, Operations of\nPDA, Move of a PDA, Instantaneous Description for PDA\n5.2 Deterministic PDA, Non Deterministic PDA, Acceptance of strings by PDA, Language\nof PDA\n5.3 Construction of PDA by Final State, Construction of PDA by Empty Stack,\n5.4 Conversion of PDA by Final State to PDA accepting by Empty Stack and vice-versa,\nConversion of CFG to PDA, Conversion of PDA to CFG".data, "Unit VI: Turing Machines (10 Hrs.)\n6.1 Introduction to Turing Machines (TM), Notations of Turing Machine, Language of a\nTuring Machine, Instantaneous Description for Turing Machine, Acceptance of a string\nby a Turing Machines\n6.2 Turing Machine as a Language Recognizer, Turing Machine as a Computing Function,\nTuring Machine with Storage in its State, Turing Machine as a enumerator of stings of a\nlanguage, Turing Machine as Subroutine\n6.3 Turing Machine with Multiple Tracks, Turing Machine with Multiple Tapes, Equivalence\nof Multitape-TM and Multitrack-TM, Non-Deterministic Turing Machines, Restricted\nTuring Machines: With Semi-infinite Tape, Multistack Machines, Counter Machines\n6.4 Curch Turing Thesis, Universal Turing Machine, Turing Machine and Computers,\nEncoding of Turing Machine, Enumerating Binary Strings, Codes of Turing Machine,\nUniversal Turing Machine for encoding of Turing Machine\n37\n--- PAGE 3 ---".data, "Unit VII: Undecidability and Intractability (5 Hrs.)\n7.1 Computational Complexity, Time and Space complexity of A Turing Machine,\nIntractability\n7.2 Complexity Classes, Problem and its types: Absract, Decision, Optimization\n7.3 Reducibility, Turing Reducible, Circuit Satisfiability, Cook's Theorem,\n7.4 Undecidability, Undecidable Problems: Post's Correspondence Problem, Halting\nProblem and its proof, Undecidable Problem about Turing Machines".data],
   "The laboratory work consists of design and implementation of finite state machines like DFA,\nNFA, PDA, and Turing Machine. Students are highly recommended to construct Tokenizers/\nLexers over/for some language. Students are advised to use regex and Perl (for using regular\nexpressions), or any other higher level language for the laboratory works.".data,
   [("Course No", "CSC257".data), ("Credit Hrs", "3".data), ("Semester", "IV".data), ("Full Marks", "$60+20+20$".data), ("Pass Marks", "$24+8+8$".data), ("Nature", "Theory + Lab".data)]⟩),
  ("Computer Networks".data,
  ⟨[],
   "The lab activities under this subject should accommodate at least the following;\n1. Understanding of Network equipment, wiring in details\n2. OS (Ubuntu/CentOS/Windows) installation, practice on basic Networking commands\n40".data,
   [("Course No", "CSC258".data), ("Credit Hrs", "3".data), ("Semester", "IV".data), ("Full Marks", "$60+20+20$".data), ("Pass Marks", "$24+8+8$".data), ("Nature", "Theory + Lab".data)]⟩),
  ("Operating Systems".data,
  ⟨[],
   "The laboratory work includes solving problems in operating system. The lab work should include\nat least;\nLearn basic Linux Commands\nCreate process, threads and implement IPC techniques\nSimulate process Scheduling algorithms and deadlock detection algorithms\nSimulate page replacement algorithms\nSimulate free space management techniques and disk scheduling algorithms.\n43".data,
   [("Course No", "CSC259".data), ("Credit Hrs", "3".data), ("Semester", "IV".data), ("Full Marks", "$60+20+20$".data), ("Pass Marks", "24+8+8".data), ("Nature", "Theory + Lab".data)]⟩),
  ("Database Management System".data,
  ⟨[],
   "The laboratory work includes writing database programs to create and query databases using\nbasic and advanced features of structured query language (SQL).".data,
   [("Course No", "CSC260".data), ("Credit Hrs", "3".data), ("Semester", "IV".data), ("Full Marks", "$60+20+20$".data), ("Pass Marks", "$24+8+8$".data), ("Nature", "Theory + Lab".data)]⟩),
  ("Artificial Intelligence".data,
  ⟨["Unit I: Introduction (3 Hrs.)\n1.1. Artificial Intelligence (AI), AI Perspectives: acting and thinking humanly, acting and\nthinking rationally\n1.2. History of AI\n1.3. Foundations of AI\n1.4. Applications of Al".data, "Unit II: Intelligent Agents (4 Hrs.)\n2.1. Introduction of agents, Structure of Intelligent agent, Properties of Intelligent Agents\n2.2. Configuration of Agents, PEAS description of Agents\n2.3. Types of Agents: Simple Reflexive, Model Based, Goal Based, Utility Based.\n2.4. Environment Types: Deterministic, Stochastic, Static, Dynamic, Observable, Semi-\nobservable, Single Agent, Multi Agent".data],
   "".data,
   [("Course No", "CSC261".data), ("Credit Hrs", "3".data), ("Semester", "IV".data), ("Full Marks", "$60+20+20$".data), ("Pass Marks", "$24+8+8$".data), ("Nature", "Theory + Lab".data)]⟩)],
  some ("Artificial Intelligence".data), true,
  ["Unit III: Problem Solving by Searching (9 Hrs.)".data, "3.1. Definition, Problem as a state space search, Problem formulation, Well-defined".data, "problems,".data, "3.2. Solving Problems by Searching, Search Strategies, Performance evaluation of search".data, "techniques".data, "3.3. Uninformed Search: Depth First Search, Breadth First Search, Depth Limited Search,".data, "Iterative Deepening Search, Bidirectional Search".data, "3.4. Informed Search: Greedy Best first search, $A^\x7b*\x7d$ search, Hill Climbing, Simulated".data, "Annealing".data], 524⟩

/-- The parser state at the scan loop's termination on the fixture. -/
def sFinal : PState :=
  ⟨[("Theory of Computation".data,
  ⟨["Unit I: Basic Foundations (3 Hrs.)\n1.1. Review of Set Theory, Logic, Functions, Proofs\n1.2. Automata, Computability and Complexity: Complexity Theory, Computability Theory,\nAutomata Theory\n1.3. Basic concepts of Automata Theory: Alphabets, Power of Alphabet, Kleen Closure\nAlphabet, Positive Closure of Alphabet, Strings, Empty String, Substring of a string,\nConcatenation of strings, Languages, Empty Language".data, "Unit II: Introduction to Finite Automata (8 Hrs.)\n2.1 Introduction to Finite Automata, Introduction of Finite State Machine\n2.2 Deterministic Finite Automata (DFA), Notations for DFA, Language of DFA, Extended\nTransition Function of DFA Non-Deterministic Finite Automaton (NFA), Notations for\nNFA, Language of NFA, Extended Transition\n2.3 Equivalence of DFA and NFA, Subset-Construction\n2.4 Method for reduction of NFA to DFA, Theorems for equivalence of Language accepted\nby DFA and NFA\n2.5 Finite Automaton with Epsilon Transition (Œµ - NFA), Notations for  NFA, Epsilon\nClosure of a State, Extended Transition Function of  NFA, Removing Epsilon\nTransition using the concept of Epsilon Closure, Equivalence of NFA and  -NFA,\nEquivalence of DFA and  - NFA\n2.6 Finite State Machines with output: Moore machine and Mealy Machines".data, "Unit III: Regular Expressions (6 Hrs.)\n3.1 Regular Expressions, Regular Operators, Regular Languages and their applications,\nAlgebraic Rules for Regular Expressions\n36\n--- PAGE 2 ---\n3.2 Equivalence of Regular Expression and Finite Automata, Reduction of Regular\nExpression to  ‚Äì NFA, Conversion of DFA to Regular Expression\n3.3 Properties of Regular Languages, Pumping Lemma, Application of Pumping Lemma,\nClosure Properties of Regular Languages over (Union, Intersection, Complement)\nMinimization of Finite State Machines: Table Filling Algorithm".data, "Unit IV: Context Free Grammar (9 Hrs.)\n4.1 Introduction to Context Free Grammar (CFG), Components of CFG, Use of CFG,\nContext Free Language (CFL)\n4.2 Types of derivations: Bottomup and Topdown approach, Leftmost and Rightmost,\nLanguage of a grammar\n4.3 Parse tree and its construction, Ambiguous grammar, Use of parse tree to show ambiguity\nin grammar\n4.4 Regular Grammars: Right Linear and Left Linear, Equivalence of regular grammar and\nfinite automata\n4.5 Simplification of CFG: Removal of Useless symbols, Nullable Symbols, and Unit\nProductions, Chomsky Normal Form (CNF), Greibach Normal Form (GNF), Backus-\nNaur Form (BNF)\n4.6 Context Sensitive Grammar, Chomsky Hierarchy Pumping Lemma for CFL, Application\nof Pumping Lemma, Closure Properties of CFL".data, "Unit V: Push Down Automata (7 Hrs.)\n5.1 Introduction to Push Down Automata (PDA), Representation of PDA, Operations of\nPDA, Move of a PDA, Instantaneous Description for PDA\n5.2 Deterministic PDA, Non Deterministic PDA, Acceptance of strings by PDA, Language\nof PDA\n5.3 Construction of PDA by Final State, Construction of PDA by Empty Stack,\n5.4 Conversion of PDA by Final State to PDA accepting by Empty Stack and vice-versa,\nConversion of CFG to PDA, Conversion of PDA to CFG".data, "Unit VI: Turing Machines (10 Hrs.)\n6.1 Introduction to Turing Machines (TM), Notations of Turing Machine, Language of a\nTuring Machine, Instantaneous Description for Turing Machine, Acceptance of a string\nby a Turing Machines\n6.2 Turing Machine as a Language Recognizer, Turing Machine as a Computing Function,\nTuring Machine with Storage in its State, Turing Machine as a enumerator of stings of a\nlanguage, Turing Machine as Subroutine\n6.3 Turing Machine with Multiple Tracks, Turing Machine with Multiple Tapes, Equivalence\nof Multitape-TM and Multitrack-TM, Non-Deterministic Turing Machines, Restricted\nTuring Machines: With Semi-infinite Tape, Multistack Machines, Counter Machines\n6.4 Curch Turing Thesis, Universal Turing Machine, Turing Machine and Computers,\nEncoding of Turing Machine, Enumerating Binary Strings, Codes of Turing Machine,\nUniversal Turing Machine for encoding of Turing Machine\n37\n--- PAGE 3 ---".data, "Unit VII: Undecidability and Intractability (5 Hrs.)\n7.1 Computational Complexity, Time and Space complexity of A Turing Machine,\nIntractability\n7.2 Complexity Classes, Problem and its types: Absract, Decision, Optimization\n7.3 Reducibility, Turing Reducible, Circuit Satisfiability, Cook's Theorem,\n7.4 Undecidability, Undecidable Problems: Post's Correspondence Problem, Halting\nProblem and its proof, Undecidable Problem about Turing Machines".data],
   "The laboratory work consists of design and implementation of finite state machines like DFA,\nNFA, PDA, and Turing Machine. Students are highly recommended to construct Tokenizers/\nLexers over/for some language. Students are advised to use regex and Perl (for using regular\nexpressions), or any other higher level language for the laboratory works.".data,
   [("Course No", "CSC257".data), ("Credit Hrs", "3".data), ("Semester", "IV".data), ("Full Marks", "$60+20+20$".data), ("Pass Marks", "$24+8+8$".data), ("Nature", "Theory + Lab".data)]⟩),
  ("Computer Networks".data,
  ⟨[],
   "The lab activities under this subject should accommodate at least the following;\n1. Understanding of Network equipment, wiring in details\n2. OS (Ubuntu/CentOS/Windows) installation, practice on basic Networking commands\n40".data,
   [("Course No", "CSC258".data), ("Credit Hrs", "3".data), ("Semester", "IV".data), ("Full Marks", "$60+20+20$".data), ("Pass Marks", "$24+8+8$".data), ("Nature", "Theory + Lab".data)]⟩),
  ("Operating Systems".data,
  ⟨[],
   "The laboratory work includes solving problems in operating system. The lab work should include\nat least;\nLearn basic Linux Commands\nCreate process, threads and implement IPC techniques\nSimulate process Scheduling algorithms and deadlock detection algorithms\nSimulate page replacement algorithms\nSimulate free space management techniques and disk scheduling algorithms.\n43".data,
   [("Course No", "CSC259".data), ("Credit Hrs", "3".data), ("Semester", "IV".data), ("Full Marks", "$60+20+20$".data), ("Pass Marks", "24+8+8".data), ("Nature", "Theory + Lab".data)]⟩),
  ("Database Management System".data,
  ⟨[],
   "The laboratory work includes writing database programs to create and query databases using\nbasic and advanced features of structured query language (SQL).".data,
   [("Course No", "CSC260".data), ("Credit Hrs", "3".data), ("Semester", "IV".data), ("Full Marks", "$60+20+20$".data), ("Pass Marks", "$24+8+8$".data), ("Nature", "Theory + Lab".data)]⟩),
  ("Artificial Intelligence".data,
  ⟨["Unit I: Introduction (3 Hrs.)\n1.1. Artificial Intelligence (AI), AI Perspectives: acting and thinking humanly, acting and\nthinking rationally\n1.2. History of AI\n1.3. Foundations of AI\n1.4. Applications of Al".data, "Unit II: Intelligent Agents (4 Hrs.)\n2.1. Introduction of agents, Structure of Intelligent agent, Properties of Intelligent Agents\n2.2. Configuration of Agents, PEAS description of Agents\n2.3. Types of Agents: Simple Reflexive, Model Based, Goal Based, Utility Based.\n2.4. Environment Types: Deterministic, Stochastic, Static, Dynamic, Observable, Semi-\nobservable, Single Agent, Multi Agent".data, "Unit III: Problem Solving by Searching (9 Hrs.)\n3.1. Definition, Problem as a state space search, Problem formulation, Well-defined\nproblems,\n3.2. Solving Problems by Searching, Search Strategies, Performance evaluation of search\ntechniques\n3.3. Uninformed Search: Depth First Search, Breadth First Search, Depth Limited Search,\nIterative Deepening Search, Bidirectional Search\n3.4. Informed Search: Greedy Best first search, $A^\x7b*\x7d$ search, Hill Climbing, Simulated\nAnnealing\n3.5. Game playing, Adversarial search techniques, Mini-max Search, Alpha-Beta Pruning.\n3.6. Constraint Satisfaction Problems\n47\n--- PAGE 13 ---".data, "Unit IV: Knowledge Representation (14 Hrs.)\n4.1. Definition and importance of Knowledge, Issues in Knowledge Representation,\nKnowledge Representation Systems, Properties of Knowledge Representation Systems.\n4.2. Types of Knowledge Representation Systems: Semantic Nets, Frames, Conceptual\nDependencies, Scripts, Rule Based Systems, Propositional Logic, Predicate Logic\n4.3. Propositional Logic(PL): Syntax, Semantics, Formal logic-connectives, truth tables,\ntautology, validity, well-formed-formula, Inference using Resolution, Backward\nChaining and Forward Chaining\n4.4. Predicate Logic: FOPL, Syntax, Semantics, Quantification, Inference with FOPL: By\nconverting into PL (Existential and universal instantiation), Unification and lifting,\nInference using resolution\n4.5. Handling Uncertain Knowledge, Radom Variables, Prior and Posterior Probability,\nInference using Full Joint Distribution, Bayes' Rule and its use, Bayesian Networks,\nReasoning in Belief Networks\n4.6. Fuzzy Logic".data, "Unit V: Machine Learning (9 Hrs.)\n5.1. Introduction to Machine Learning, Concepts of Learning, Supervised, Unsupervised and\nReinforcement Learning\n5.2. Statistical-based Learning: Naive Bayes Model\n5.3. Learning by Genetic Algorithm\n5.4. Learning with Neural Networks: Introduction, Biological Neural Networks Vs. Artificial\nNeural Networks (ANN), Mathematical Model of ANN, Types of ANN: Feed-forward,\nRecurrent, Single Layered, Multi-Layered, Application of Artificial Neural Networks,\nLearning by Training ANN, Supervised vs. Unsupervised Learning, Hebbian Learning,\nPerceptron Learning, Back-propagation Learning".data, "Unit VI: Applications of AI (6 Hrs.)\n6.1. Expert Systems, Development of Expert Systems\n6.2. Natural Language Processing: Natural Language Understanding and Natural Language\nGeneration, Steps of Natural Language Processing\n6.3. Machine Vision Concepts\n6.4. Robotics".data],
   "The laboratory work consists of design and implementation of intelligent agents and expert\nsystems, searching techniques, knowledge representation systems and machine learning\ntechniques. Students are also advised to implement Neural Networks, Genetic Algorithms for\nsolving practical problems of AI. Students are advised to use LISP, PROLOG, or any other high\nlevel language.".data,
   [("Course No", "CSC261".data), ("Credit Hrs", "3".data), ("Semester", "IV".data), ("Full Marks", "$60+20+20$".data), ("Pass Marks", "$24+8+8$".data), ("Nature", "Theory + Lab".data)]⟩)],
  some ("Artificial Intelligence".data), false,
  [], 590⟩

/-! Theorems. -/

/-- A surviving chunk of iterations advances the loop: the fuel spent on
it is subtracted and the scan resumes from the chunk's end state. -/
theorem loop_runChunk (lines : List (List Char)) (len : Nat) :
    ∀ (a b : Nat) (st st' : PState), runChunk lines len a st = some st' →
      loop lines len (a + b) st = loop lines len b st' := by
  intro a
  induction a with
  | zero =>
    intro b st st' h
    simp only [runChunk, Option.some.injEq] at h
    rw [Nat.zero_add, h]
  | succ n ih =>
    intro b st st' h
    simp only [runChunk] at h
    split at h
    · rename_i hlt
      rw [show n + 1 + b = (n + b) + 1 by omega]
      simp only [loop]
      rw [if_pos hlt]
      exact ih b (step lines len st) st' h
    · exact absurd h (by simp)

set_option maxRecDepth 1000000 in
set_option maxHeartbeats 100000000 in
theorem pdf_chunk1 : runChunk pdfLines 590 100 initState = some sChunk1 := by rfl

set_option maxRecDepth 1000000 in
set_option maxHeartbeats 100000000 in
theorem pdf_chunk2 : runChunk pdfLines 590 100 sChunk1 = some sChunk2 := by rfl

set_option maxRecDepth 1000000 in
set_option maxHeartbeats 100000000 in
theorem pdf_chunk3 : runChunk pdfLines 590 100 sChunk2 = some sChunk3 := by rfl

set_option maxRecDepth 1000000 in
set_option maxHeartbeats 100000000 in
theorem pdf_chunk4 : runChunk pdfLines 590 100 sChunk3 = some sChunk4 := by rfl

set_option maxRecDepth 1000000 in
set_option maxHeartbeats 100000000 in
theorem pdf_chunk5 : runChunk pdfLines 590 100 sChunk4 = some sChunk5 := by rfl

set_option maxRecDepth 1000000 in
set_option maxHeartbeats 100000000 in
theorem pdf_loop_tail : loop pdfLines 590 681 sChunk5 = some sFinal := by rfl

set_option maxRecDepth 1000000 in
set_option maxHeartbeats 100000000 in
theorem pdfLines_length : pdfLines.length = 590 := by rfl

/-- The scan loop on the fixture, assembled from the five chunks and the
tail run. -/
theorem pdf_loop_run : loop pdfLines 590 1181 initState = some sFinal := by
  rw [show (1181 : Nat) = 100 + 1081 from rfl,
    loop_runChunk pdfLines 590 100 1081 initState sChunk1 pdf_chunk1]
  rw [show (1081 : Nat) = 100 + 981 from rfl,
    loop_runChunk pdfLines 590 100 981 sChunk1 sChunk2 pdf_chunk2]
  rw [show (981 : Nat) = 100 + 881 from rfl,
    loop_runChunk pdfLines 590 100 881 sChunk2 sChunk3 pdf_chunk3]
  rw [show (881 : Nat) = 100 + 781 from rfl,
    loop_runChunk pdfLines 590 100 781 sChunk3 sChunk4 pdf_chunk4]
  rw [show (781 : Nat) = 100 + 681 from rfl,
    loop_runChunk pdfLines 590 100 681 sChunk4 sChunk5 pdf_chunk5]
  exact pdf_loop_tail

set_option maxRecDepth 1000000 in
set_option maxHeartbeats 100000000 in
/-- C1: evaluation of `parse_syllabus` on the bundled fixture `pdf_text`.
The five course records, their order and their `Course No` details are as
the claim says, but the unit counts are 7, 0, 0, 0, 6 — not 7, 7, 7, 10,
6: the Computer Networks, Operating Systems and Database Management
System sections head their units `Unit 1:`, `Unit 2:`, ... with arabic
numerals, which `unit_start_re` (Roman numerals only) never matches. -/
theorem parse_syllabus_pdf_text_eval :
    courseSummary (parse_syllabus pdf_text) =
      [("Theory of Computation", some "CSC257", 7),
       ("Computer Networks", some "CSC258", 0),
       ("Operating Systems", some "CSC259", 0),
       ("Database Management System", some "CSC260", 0),
       ("Artificial Intelligence", some "CSC261", 6)] := by
  have h : parse_syllabus pdf_text = parseLines pdfLines := rfl
  rw [h]
  unfold parseLines
  rw [pdfLines_length]
  rw [show (2 * 590 + 1 : Nat) = 1181 from rfl]
  rw [pdf_loop_run]
  rfl

/-- C7: detail extraction is order-independent and partial: with only
`Course No: CSC260` and `Semester: IV` lines present (in either order),
the record's details hold exactly those two entries. -/
theorem details_two_keys_either_order :
    parse_syllabus twoDetailTextA =
      [("Gamma Delta".data,
        { units := [], labWork := [],
          details := [("Course No", "CSC260".data), ("Semester", "IV".data)] })] ∧
    parse_syllabus twoDetailTextB =
      [("Gamma Delta".data,
        { units := [], labWork := [],
          details := [("Course No", "CSC260".data), ("Semester", "IV".data)] })] :=
  ⟨by decide, by decide⟩

/-- C8: three consecutive units with distinct bodies come out in source
order, without reordering or deduplication. -/
theorem units_source_order :
    parse_syllabus threeUnitText =
      [("Epsilon Zeta".data,
        { units := ["Unit I: One\nA".data, "Unit II: Two\nB".data,
                    "Unit III: Three\nC".data],
          labWork := [], details := [("Course No", "CSC300".data)] })] := by decide

/-- C4 counterexample: in `ccText` no stripped line is exactly
`Course Contents:` (the third is `Course Contents: Overview`), yet a unit
is parsed for the course — section-start detection fired on a line that
merely starts with `Course Contents:`, refuting the claim's "exactly". -/
theorem course_contents_exactness_counterexample :
    ((splitLines ccText.data).all
      (fun l => !(pyStrip l == "Course Contents:".data))) = true ∧
    (parse_syllabus ccText).map (fun p => (p.1, p.2.units)) =
      [("Alpha Beta".data, ["Unit I: Things\n1.1 stuff".data])] :=
  ⟨by decide, by decide⟩

/-- C5 counterexample: in `kwText` the first line matches the explicit
`Course Title:` marker and none of the lines after it contains a detail
keyword, yet the line is accepted as a title (the keyword `Semester:`
sits on the marker line itself, which the code's window includes). -/
theorem explicit_title_window_counterexample :
    (course_title_pattern (pyStrip ((splitLines kwText.data).getD 0 []))).isSome = true ∧
    ((splitLines kwText.data).drop 1).all (fun l => !detail_keywords_re l) = true ∧
    (parse_syllabus kwText).map (fun p => p.1) = ["Foo Semester: Bar".data] :=
  ⟨by decide, by decide, by decide⟩

/-- The final filter's predicate forces one of the three content
conditions. -/
theorem keepRec_content (p : List Char × CourseRec) (h : keepRec p = true) :
    p.2.units ≠ [] ∨ p.2.labWork ≠ [] ∨ (dlookup "Course No" p.2.details).isSome := by
  unfold keepRec at h
  rcases (Bool.or_eq_true _ _).mp h with h12 | h3
  · rcases (Bool.or_eq_true _ _).mp h12 with h1 | h2
    · left
      intro e
      rw [e] at h1
      exact absurd h1 (by decide)
    · right; left
      intro e
      rw [e] at h2
      exact absurd h2 (by decide)
  · right; right
    rcases (Bool.and_eq_true _ _).mp h3 with ⟨_, hm⟩
    cases hdl : dlookup "Course No" p.2.details with
    | some v => rfl
    | none => rw [hdl] at hm; exact absurd hm (by decide)

/-- C2: every record in the returned mapping has a nonempty unit list, a
nonempty lab-work text, or a `Course No` entry in its details (and the
units field exists on every record by construction of `CourseRec`). -/
theorem parse_record_content (text : String) (p : List Char × CourseRec)
    (hp : p ∈ parse_syllabus text) :
    p.2.units ≠ [] ∨ p.2.labWork ≠ [] ∨ (dlookup "Course No" p.2.details).isSome := by
  unfold parse_syllabus parseLines at hp
  cases hl : loop (splitLines text.data) (splitLines text.data).length
      (2 * (splitLines text.data).length + 1) initState with
  | none =>
    rw [hl] at hp
    exact absurd hp (List.not_mem_nil p)
  | some st =>
    rw [hl] at hp
    unfold finalize at hp
    exact keepRec_content p (List.mem_filter.mp hp).2

/-- C2 witness: the record parsed from `twoDetailTextA` has a `Course No`
entry. -/
theorem parse_record_content_witness :
    ("Gamma Delta".data,
      ({ units := [], labWork := [],
         details := [("Course No", "CSC260".data), ("Semester", "IV".data)] } : CourseRec)).2.units ≠ [] ∨
    ("Gamma Delta".data,
      ({ units := [], labWork := [],
         details := [("Course No", "CSC260".data), ("Semester", "IV".data)] } : CourseRec)).2.labWork ≠ [] ∨
    (dlookup "Course No"
      ("Gamma Delta".data,
        ({ units := [], labWork := [],
           details := [("Course No", "CSC260".data), ("Semester", "IV".data)] } : CourseRec)).2.details).isSome :=
  parse_record_content twoDetailTextA _ (by decide)

/-- The lab-work scan's final position never moves backwards and advances
by at most its fuel. -/
theorem labScanAux_bounds (lines : List (List Char)) (len : Nat) :
    ∀ (fuel temp blanks : Nat) (desc : List (List Char)),
      temp ≤ (labScanAux lines len fuel temp blanks desc).2 ∧
        (labScanAux lines len fuel temp blanks desc).2 ≤ temp + fuel := by
  intro fuel
  induction fuel with
  | zero =>
    intro temp blanks desc
    constructor <;> simp [labScanAux]
  | succ n ih =>
    intro temp blanks desc
    simp only [labScanAux]
    split
    · simp
    · split
      · simp
      · constructor
        · exact le_trans (Nat.le_succ temp) (ih _ _ _).1
        · exact le_trans (ih _ _ _).2 (by omega)

/-- Each executed loop iteration strictly decreases `pMeasure`: every
branch advances the line cursor except the re-evaluation branch, which
empties a nonempty unit buffer while keeping the cursor. -/
theorem step_measure (lines : List (List Char)) (len : Nat) (st : PState)
    (h : st.lineIdx < len) : pMeasure len (step lines len st) < pMeasure len st := by
  simp only [step]
  split
  · -- title branch
    simp only [pMeasure]
    cases st.currentUnit.isEmpty <;> simp <;> omega
  · split
    · -- Course Contents prefix
      split
      · simp only [pMeasure]
        cases st.currentUnit.isEmpty <;> simp <;> omega
      · simp only [pMeasure]
        cases st.currentUnit.isEmpty <;> simp <;> omega
    · split
      · -- no current subject
        simp only [pMeasure]
        cases st.currentUnit.isEmpty <;> simp <;> omega
      · split
        · -- unit-start branch
          simp only [pMeasure]
          cases st.currentUnit.isEmpty <;> simp <;> omega
        · split
          · -- lab-work branch
            rename_i s g0 hg0
            have hb := labScanAux_bounds lines len (len - (st.lineIdx + 1))
              (st.lineIdx + 1) 0
              [pyStrip (replaceAll g0 (pyStrip (lines.getD st.lineIdx [])))]
            generalize hT : labScanAux lines len (len - (st.lineIdx + 1))
              (st.lineIdx + 1) 0
              [pyStrip (replaceAll g0 (pyStrip (lines.getD st.lineIdx [])))] = scanRes
            rw [hT] at hb
            simp only [pMeasure]
            cases st.currentUnit.isEmpty <;>
              first
                | (simp; omega)
                | simp
          · split
            · -- unit body accumulation
              rename_i hguard
              split
              · -- append to buffer
                have hne : (st.currentUnit ++
                    [pyStrip (lines.getD st.lineIdx [])]).isEmpty = false := by
                  cases st.currentUnit <;> rfl
                simp only [pMeasure, hne]
                cases st.currentUnit.isEmpty <;>
                  first
                    | (simp; omega)
                    | simp
              · -- flush and re-evaluate the line
                simp only [Bool.and_eq_true, Bool.not_eq_true'] at hguard
                have hcu : st.currentUnit.isEmpty = false := hguard.1.2
                simp only [pMeasure, hcu]
                first
                  | (simp; omega)
                  | simp
            · -- nothing matched
              simp only [pMeasure]
              cases st.currentUnit.isEmpty <;>
                first
                  | (simp; omega)
                  | simp

/-- With fuel exceeding the measure, the loop returns a state. -/
theorem loop_isSome (lines : List (List Char)) (len : Nat) :
    ∀ (fuel : Nat) (st : PState), pMeasure len st < fuel →
      (loop lines len fuel st).isSome = true := by
  intro fuel
  induction fuel with
  | zero =>
    intro st h
    exact absurd h (Nat.not_lt_zero _)
  | succ n ih =>
    intro st h
    simp only [loop]
    split
    · rename_i hlt
      exact ih (step lines len st)
        (by have := step_measure lines len st hlt; omega)
    · rfl

/-- The scan loop always ends within the fuel `parseLines` supplies, and
`parse_syllabus` is the finalization of the final state. -/
theorem parse_syllabus_run (text : String) :
    ∃ st, loop (splitLines text.data) (splitLines text.data).length
        (2 * (splitLines text.data).length + 1) initState = some st ∧
      parse_syllabus text = finalize st := by
  have hmi : pMeasure (splitLines text.data).length initState =
      2 * (splitLines text.data).length := by
    simp [pMeasure, initState]
  have h := loop_isSome (splitLines text.data) (splitLines text.data).length
    (2 * (splitLines text.data).length + 1) initState (by omega)
  obtain ⟨st, hst⟩ := Option.isSome_iff_exists.mp h
  refine ⟨st, hst, ?_⟩
  unfold parse_syllabus parseLines
  rw [hst]

/-- C3: `parse_syllabus` is total and deterministic — on every input
string the scan loop terminates within the supplied fuel with some final
state, and the returned mapping is its finalization (no exceptional
outcome exists in the model). -/
theorem parse_syllabus_total (text : String) :
    ∃ st, loop (splitLines text.data) (splitLines text.data).length
        (2 * (splitLines text.data).length + 1) initState = some st ∧
      parse_syllabus text = finalize st :=
  parse_syllabus_run text

/-! Lemmas about stripping and joining. -/

theorem dropWhile_head_not (p : Char → Bool) :
    ∀ (l : List Char) (c : Char), (l.dropWhile p).head? = some c → p c = false := by
  intro l
  induction l with
  | nil => intro c h; exact absurd h (by simp)
  | cons a as ih =>
    intro c h
    rw [List.dropWhile_cons] at h
    split at h
    · exact ih c h
    · rename_i hpa
      rw [List.head?_cons] at h
      have hac : a = c := by injection h
      subst hac
      cases hp : p a with
      | false => rfl
      | true => exact absurd hp hpa

theorem dropWhile_eq_self (p : Char → Bool) (l : List Char)
    (h : ∀ c, l.head? = some c → p c = false) : l.dropWhile p = l := by
  cases l with
  | nil => rfl
  | cons a as =>
    rw [List.dropWhile_cons, if_neg]
    rw [h a rfl]
    simp

theorem pyStrip_eq_self (l : List Char)
    (hh : ∀ c, l.head? = some c → pyWs c = false)
    (hl : ∀ c, l.getLast? = some c → pyWs c = false) : pyStrip l = l := by
  unfold pyStrip
  rw [dropWhile_eq_self pyWs l hh]
  rw [dropWhile_eq_self pyWs l.reverse
    (by intro c hc; rw [List.head?_reverse] at hc; exact hl c hc)]
  exact List.reverse_reverse l

theorem getLast?_dropWhile (p : Char → Bool) :
    ∀ (l : List Char), l.dropWhile p ≠ [] →
      (l.dropWhile p).getLast? = l.getLast? := by
  intro l
  induction l with
  | nil => intro _; rfl
  | cons a as ih =>
    intro h
    rw [List.dropWhile_cons] at h ⊢
    split
    · rename_i hpa
      rw [if_pos hpa] at h
      rw [ih h]
      have has : as ≠ [] := by
        intro e
        rw [e] at h
        exact h rfl
      cases as with
      | nil => exact absurd rfl has
      | cons b bs => rw [List.getLast?_cons_cons]
    · rfl

theorem pyStrip_getLast_not_ws (l : List Char) (c : Char)
    (h : (pyStrip l).getLast? = some c) : pyWs c = false := by
  unfold pyStrip at h
  rw [List.getLast?_reverse] at h
  exact dropWhile_head_not pyWs _ c h

theorem pyStrip_head_not_ws (l : List Char) (c : Char)
    (h : (pyStrip l).head? = some c) : pyWs c = false := by
  unfold pyStrip at h
  rw [List.head?_reverse] at h
  have hne : (l.dropWhile pyWs).reverse.dropWhile pyWs ≠ [] := by
    intro e
    rw [e] at h
    exact absurd h (by simp)
  rw [getLast?_dropWhile pyWs _ hne, List.getLast?_reverse] at h
  exact dropWhile_head_not pyWs _ c h

theorem pyStrip_idem (l : List Char) : pyStrip (pyStrip l) = pyStrip l :=
  pyStrip_eq_self (pyStrip l) (pyStrip_head_not_ws l) (pyStrip_getLast_not_ws l)

theorem mem_pyStrip (c : Char) (l : List Char) (h : c ∈ pyStrip l) : c ∈ l := by
  unfold pyStrip at h
  rw [List.mem_reverse] at h
  have h1 := (List.dropWhile_sublist (l := (l.dropWhile pyWs).reverse) pyWs).subset h
  rw [List.mem_reverse] at h1
  exact (List.dropWhile_sublist pyWs).subset h1

theorem joinNl_ne_nil (l : List Char) (rest : List (List Char)) (hl : l ≠ []) :
    joinNl (l :: rest) ≠ [] := by
  cases rest with
  | nil => exact hl
  | cons r rs =>
    show l ++ '\n' :: joinNl (r :: rs) ≠ []
    intro e
    rcases List.append_eq_nil.mp e with ⟨_, h2⟩
    exact absurd h2 (by simp)

theorem head?_joinNl (l : List Char) (rest : List (List Char)) (hl : l ≠ []) :
    (joinNl (l :: rest)).head? = l.head? := by
  cases rest with
  | nil => rfl
  | cons r rs =>
    show (l ++ '\n' :: joinNl (r :: rs)).head? = l.head?
    rw [List.head?_append]
    cases l with
    | nil => exact absurd rfl hl
    | cons a as => rfl

theorem joinNl_getLast_not_ws :
    ∀ (buf : List (List Char)), (∀ x ∈ buf, x ≠ [] ∧ pyStrip x = x) →
      ∀ c, (joinNl buf).getLast? = some c → pyWs c = false := by
  intro buf
  induction buf with
  | nil => intro _ c h; exact absurd h (by simp [joinNl])
  | cons l rest ih =>
    intro hx c h
    cases rest with
    | nil =>
      have hl := hx l (by simp)
      rw [show joinNl [l] = l from rfl, ← hl.2] at h
      exact pyStrip_getLast_not_ws l c h
    | cons r rs =>
      have hJ : joinNl (r :: rs) ≠ [] := joinNl_ne_nil r rs (hx r (by simp)).1
      rw [show joinNl (l :: r :: rs) = l ++ '\n' :: joinNl (r :: rs) from rfl] at h
      rw [List.getLast?_append] at h
      cases hJe : joinNl (r :: rs) with
      | nil => exact absurd hJe hJ
      | cons j js =>
        rw [hJe, List.getLast?_cons_cons] at h
        cases hy : (j :: js).getLast? with
        | none => exact absurd hy (by simp)
        | some y =>
          rw [hy] at h
          have hyc : y = c := by simpa using h
          subst hyc
          apply ih (fun x hxm => hx x (by simp [hxm])) y
          rw [hJe]
          exact hy

theorem joinNl_strip_fixed (buf : List (List Char))
    (hx : ∀ x ∈ buf, x ≠ [] ∧ pyStrip x = x) :
    pyStrip (joinNl buf) = joinNl buf := by
  cases buf with
  | nil => rfl
  | cons l rest =>
    apply pyStrip_eq_self
    · intro c hc
      rw [head?_joinNl l rest (hx l (by simp)).1, ← (hx l (by simp)).2] at hc
      exact pyStrip_head_not_ws l c hc
    · intro c hc
      exact joinNl_getLast_not_ws (l :: rest) hx c hc

theorem takeWhile_no_nl (l : List Char) (h : '\n' ∉ l) :
    l.takeWhile (fun c => c ≠ '\n') = l := by
  induction l with
  | nil => rfl
  | cons a as ih =>
    rw [List.takeWhile_cons, if_pos, ih (fun hm => h (by simp [hm]))]
    simp only [decide_eq_true_eq]
    intro e
    exact h (by simp [e])

theorem takeWhile_append_nl (t : List Char) :
    ∀ (l : List Char), '\n' ∉ l →
      (l ++ '\n' :: t).takeWhile (fun c => c ≠ '\n') = l := by
  intro l
  induction l with
  | nil =>
    intro _
    simp [List.takeWhile_cons]
  | cons a as ih =>
    intro h
    rw [List.cons_append, List.takeWhile_cons, if_pos, ih (fun hm => h (by simp [hm]))]
    simp only [decide_eq_true_eq]
    intro e
    exact h (by simp [e])

theorem firstLine_joinNl (l : List Char) (rest : List (List Char))
    (hnl : '\n' ∉ l) : firstLine (joinNl (l :: rest)) = l := by
  cases rest with
  | nil => exact takeWhile_no_nl l hnl
  | cons r rs =>
    show (l ++ '\n' :: joinNl (r :: rs)).takeWhile (fun c => c ≠ '\n') = l
    exact takeWhile_append_nl (joinNl (r :: rs)) l hnl


/-! Lemmas about the insertion-ordered dictionary. -/

theorem hasKey_iff (d : List (List Char × CourseRec)) (k : List Char) :
    hasKey d k = true ↔ k ∈ d.map Prod.fst := by
  unfold hasKey
  rw [List.any_eq_true]
  constructor
  · rintro ⟨p, hp, hbeq⟩
    rw [beq_iff_eq] at hbeq
    exact hbeq ▸ List.mem_map_of_mem Prod.fst hp
  · intro hm
    rcases List.mem_map.mp hm with ⟨p, hp, he⟩
    exact ⟨p, hp, beq_iff_eq.mpr he⟩

theorem modifyRec_keys (k : List Char) (f : CourseRec → CourseRec) :
    ∀ d : List (List Char × CourseRec),
      (modifyRec k f d).map Prod.fst =
        if k ∈ d.map Prod.fst then d.map Prod.fst else d.map Prod.fst ++ [k] := by
  intro d
  induction d with
  | nil => simp [modifyRec]
  | cons q rest ih =>
    by_cases he : q.1 = k
    · have : modifyRec k f (q :: rest) = (q.1, f q.2) :: rest := by
        rw [show (q : List Char × CourseRec) = (q.1, q.2) from rfl, modifyRec, if_pos he]
      rw [this]
      simp only [List.map_cons, he]
      rw [if_pos (List.mem_cons_self k _)]
    · have : modifyRec k f (q :: rest) = q :: modifyRec k f rest := by
        rw [show (q : List Char × CourseRec) = (q.1, q.2) from rfl, modifyRec, if_neg he]
      rw [this]
      by_cases hk : k ∈ rest.map Prod.fst
      · simp only [List.map_cons, ih, if_pos hk]
        rw [if_pos (List.mem_cons_of_mem (Prod.fst q) hk)]
      · simp only [List.map_cons, ih, if_neg hk]
        rw [if_neg, List.cons_append]
        intro hm
        rcases List.mem_cons.mp hm with h1 | h2
        · exact he h1.symm
        · exact hk h2

theorem modifyRec_mem (k : List Char) (f : CourseRec → CourseRec) :
    ∀ (d : List (List Char × CourseRec)) (p : List Char × CourseRec),
      p ∈ modifyRec k f d →
        p ∈ d ∨ ∃ r, p = (k, f r) ∧ ((k, r) ∈ d ∨ r = emptyRec) := by
  intro d
  induction d with
  | nil =>
    intro p hp
    rw [show modifyRec k f [] = [(k, f emptyRec)] from rfl] at hp
    exact Or.inr ⟨emptyRec, List.mem_singleton.mp hp, Or.inr rfl⟩
  | cons q rest ih =>
    intro p hp
    by_cases he : q.1 = k
    · rw [show (q : List Char × CourseRec) = (q.1, q.2) from rfl, modifyRec, if_pos he] at hp
      rcases List.mem_cons.mp hp with rfl | hrest
      · exact Or.inr ⟨q.2, by rw [he], Or.inl (by rw [← he]; exact List.mem_cons_self _ _)⟩
      · exact Or.inl (List.mem_cons_of_mem q hrest)
    · rw [show (q : List Char × CourseRec) = (q.1, q.2) from rfl, modifyRec, if_neg he] at hp
      rcases List.mem_cons.mp hp with rfl | hrest
      · exact Or.inl (List.mem_cons_self _ _)
      · rcases ih p hrest with h | ⟨r, hr, hrd⟩
        · exact Or.inl (List.mem_cons_of_mem q h)
        · refine Or.inr ⟨r, hr, ?_⟩
          rcases hrd with h1 | h2
          · exact Or.inl (List.mem_cons_of_mem q h1)
          · exact Or.inr h2

theorem modifyRec_DataGood (k : List Char) (f : CourseRec → CourseRec)
    (d : List (List Char × CourseRec)) (hd : DataGood d) (hk : k ≠ [])
    (hf : ∀ r, (∀ u ∈ r.units, UnitGood u) → ∀ u ∈ (f r).units, UnitGood u) :
    DataGood (modifyRec k f d) := by
  obtain ⟨hnodup, hkeys, hunits⟩ := hd
  refine ⟨?_, ?_, ?_⟩
  · rw [modifyRec_keys]
    split
    · exact hnodup
    · rename_i hnk
      refine List.Nodup.append hnodup (List.nodup_singleton k) ?_
      intro a ha hb
      rw [List.mem_singleton] at hb
      subst hb
      exact hnk ha
  · intro p hp
    rcases modifyRec_mem k f d p hp with h | ⟨r, rfl, _⟩
    · exact hkeys p h
    · exact hk
  · intro p hp u hu
    rcases modifyRec_mem k f d p hp with h | ⟨r, rfl, hr⟩
    · exact hunits p h u hu
    · rcases hr with hrd | rfl
      · exact hf r (hunits (k, r) hrd) u hu
      · exact hf emptyRec (fun u hu' => absurd hu' (List.not_mem_nil u)) u hu

theorem ensureKey_DataGood (d : List (List Char × CourseRec)) (k : List Char)
    (hd : DataGood d) (hk : k ≠ []) : DataGood (ensureKey d k) := by
  obtain ⟨hnodup, hkeys, hunits⟩ := hd
  unfold ensureKey
  split
  · exact ⟨hnodup, hkeys, hunits⟩
  · rename_i hK
    have hnk : k ∉ d.map Prod.fst := by
      intro hm
      exact hK ((hasKey_iff d k).mpr hm)
    refine ⟨?_, ?_, ?_⟩
    · rw [List.map_append]
      refine List.Nodup.append hnodup (List.nodup_singleton k) ?_
      intro a ha hb
      simp only [List.map_cons, List.map_nil, List.mem_singleton] at hb
      subst hb
      exact hnk ha
    · intro p hp
      rcases List.mem_append.mp hp with h | h
      · exact hkeys p h
      · rw [List.mem_singleton.mp h]
        exact hk
    · intro p hp u hu
      rcases List.mem_append.mp hp with h | h
      · exact hunits p h u hu
      · rw [List.mem_singleton.mp h] at hu
        exact absurd hu (List.not_mem_nil u)

theorem flushUnit_DataGood (d : List (List Char × CourseRec)) (s : List Char)
    (buf : List (List Char)) (hd : DataGood d) (hs : s ≠ []) (hb : BufGood buf) :
    DataGood (flushUnit d s buf) := by
  simp only [flushUnit]
  split
  · exact hd
  · split
    · exact hd
    · rename_i hbufE hutE
      apply modifyRec_DataGood s _ d hd hs
      intro r hr u hu
      rcases List.mem_append.mp hu with h | h
      · exact hr u h
      · rw [List.mem_singleton.mp h]
        cases hbuf : buf with
        | nil =>
          rw [hbuf] at hbufE
          exact absurd (rfl : ([] : List (List Char)).isEmpty = true) hbufE
        | cons l rest =>
          rw [hbuf] at hb hutE
          obtain ⟨hus, hlg, hrest⟩ := hb
          have hall : ∀ x ∈ l :: rest, x ≠ [] ∧ pyStrip x = x := by
            intro x hx
            rcases List.mem_cons.mp hx with rfl | hx'
            · exact ⟨hlg.1, hlg.2.1⟩
            · exact ⟨(hrest x hx').1, (hrest x hx').2.1⟩
          refine ⟨pyStrip_idem _, ?_, ?_⟩
          · simp only [List.isEmpty_iff] at hutE
            exact hutE
          · rw [joinNl_strip_fixed (l :: rest) hall, firstLine_joinNl l rest hlg.2.2]
            exact hus

theorem unit_start_ne_nil (l : List Char) (h : unit_start_re l = true) : l ≠ [] := by
  intro e
  rw [e] at h
  exact absurd h (by decide)

theorem getD_no_nl (lines : List (List Char)) (idx : Nat)
    (h : ∀ l ∈ lines, '\n' ∉ l) : '\n' ∉ lines.getD idx [] := by
  rw [List.getD_eq_getElem?_getD]
  cases hE : lines[idx]? with
  | none => simp
  | some l => simpa using h l (List.getElem?_mem hE)

theorem splitLinesAux_no_nl :
    ∀ (cs cur : List Char), '\n' ∉ cur →
      ∀ l ∈ splitLinesAux cur cs, '\n' ∉ l := by
  intro cs
  induction cs with
  | nil =>
    intro cur hc l hl
    rcases List.mem_singleton.mp hl with rfl
    simpa using hc
  | cons c cs' ih =>
    intro cur hc l hl
    rw [splitLinesAux] at hl
    split at hl
    · rcases List.mem_cons.mp hl with rfl | h'
      · simpa using hc
      · exact ih [] (by simp) l h'
    · rename_i hcn
      refine ih (c :: cur) ?_ l hl
      intro hm
      rcases List.mem_cons.mp hm with he | hm'
      · exact hcn he.symm
      · exact hc hm'

theorem splitLines_no_nl (cs : List Char) : ∀ l ∈ splitLines cs, '\n' ∉ l :=
  splitLinesAux_no_nl cs [] (by simp)


theorem heuristicTitle_ne_nil (lines : List (List Char)) (len idx : Nat)
    (line pt : List Char) (h : heuristicTitle lines len idx line = some pt) :
    pt ≠ [] := by
  unfold heuristicTitle at h
  cases hg : general_title_pattern line with
  | none => rw [hg] at h; exact absurd h (by simp)
  | some g =>
    rw [hg] at h
    simp only [] at h
    split at h
    · rename_i hcond
      split at h
      · injection h with h'
        subst h'
        intro e
        have h4 := ((Bool.and_eq_true _ _).mp ((Bool.and_eq_true _ _).mp
          ((Bool.and_eq_true _ _).mp ((Bool.and_eq_true _ _).mp hcond).1).1).1).1
        rw [e] at h4
        exact absurd h4 (by decide)
      · exact absurd h (by simp)
    · exact absurd h (by simp)

theorem titleDetect_ne_nil (lines : List (List Char)) (len idx : Nat)
    (line pt : List Char) (h : titleDetect lines len idx line = some pt) :
    pt ≠ [] := by
  unfold titleDetect at h
  cases hg : course_title_pattern line with
  | none =>
    rw [hg] at h
    exact heuristicTitle_ne_nil lines len idx line pt h
  | some g =>
    rw [hg] at h
    simp only [] at h
    split at h
    · split at h
      · exact absurd h (by simp)
      · rename_i hne
        injection h with h'
        rw [← h']
        exact hne
    · exact heuristicTitle_ne_nil lines len idx line pt h

theorem step_InvGood (lines : List (List Char)) (len : Nat) (st : PState)
    (hnl : ∀ l ∈ lines, '\n' ∉ l) (h : InvGood st) : InvGood (step lines len st) := by
  obtain ⟨hdata, hsubj, hbuf⟩ := h
  have hline_nl : '\n' ∉ pyStrip (lines.getD st.lineIdx []) :=
    fun hm => getD_no_nl lines st.lineIdx hnl (mem_pyStrip _ _ hm)
  have hline_strip : pyStrip (pyStrip (lines.getD st.lineIdx [])) =
      pyStrip (lines.getD st.lineIdx []) := pyStrip_idem _
  simp only [step]
  split
  · -- new title accepted
    rename_i pt hpt
    have hptne : pt ≠ [] := titleDetect_ne_nil _ _ _ _ _ hpt
    refine ⟨?_, ?_, trivial⟩
    · apply modifyRec_DataGood
      · apply ensureKey_DataGood
        · cases hcs : st.currentSubject with
          | some s => exact flushUnit_DataGood _ s _ hdata (hsubj s hcs) hbuf
          | none => exact hdata
        · exact hptne
      · exact hptne
      · intro r hr u hu
        exact hr u hu
    · intro s hs
      injection hs with hs'
      rw [← hs']
      exact hptne
  · split
    · -- Course Contents prefix
      split
      · rename_i s hcs
        exact ⟨flushUnit_DataGood _ s _ hdata (hsubj s hcs) hbuf, hsubj, trivial⟩
      · exact ⟨hdata, hsubj, hbuf⟩
    · split
      · exact ⟨hdata, hsubj, hbuf⟩
      · rename_i s hcs
        split
        · -- unit-heading line
          rename_i hguard
          have hgl := (Bool.and_eq_true _ _).mp hguard
          refine ⟨flushUnit_DataGood _ s _ hdata (hsubj s hcs) hbuf, hsubj, ?_⟩
          refine ⟨hgl.2, ⟨unit_start_ne_nil _ hgl.2, hline_strip, hline_nl⟩, ?_⟩
          intro x hx
          exact absurd hx (List.not_mem_nil x)
        · split
          · -- lab work
            refine ⟨?_, hsubj, trivial⟩
            apply modifyRec_DataGood
            · exact flushUnit_DataGood _ s _ hdata (hsubj s hcs) hbuf
            · exact hsubj s hcs
            · intro r hr u hu
              exact hr u hu
          · split
            · -- unit body line
              rename_i hguard
              simp only [Bool.and_eq_true, Bool.not_eq_true'] at hguard
              split
              · -- append
                refine ⟨hdata, hsubj, ?_⟩
                have hbe : st.currentUnit.isEmpty = false := hguard.1.2
                have hle : pyStrip (lines.getD st.lineIdx []) ≠ [] :=
                  List.isEmpty_eq_false.mp hguard.2
                cases hcu : st.currentUnit with
                | nil => rw [hcu] at hbe; exact absurd hbe (by decide)
                | cons l0 rest0 =>
                  rw [hcu] at hbuf
                  obtain ⟨hus, hlg, hrest⟩ := hbuf
                  refine ⟨hus, hlg, ?_⟩
                  intro x hx
                  rcases List.mem_append.mp hx with hx1 | hx2
                  · exact hrest x hx1
                  · rw [List.mem_singleton.mp hx2]
                    exact ⟨hle, hline_strip, hline_nl⟩
              · -- flush, re-evaluate
                exact ⟨flushUnit_DataGood _ s _ hdata (hsubj s hcs) hbuf, hsubj, trivial⟩
            · exact ⟨hdata, hsubj, hbuf⟩

theorem initState_InvGood : InvGood initState := by
  refine ⟨⟨List.nodup_nil, ?_, ?_⟩, ?_, trivial⟩
  · intro p hp
    exact absurd hp (List.not_mem_nil p)
  · intro p hp
    exact absurd hp (List.not_mem_nil p)
  · intro s hs
    exact absurd hs (by simp [initState])

theorem loop_InvGood (lines : List (List Char)) (len : Nat)
    (hnl : ∀ l ∈ lines, '\n' ∉ l) :
    ∀ (fuel : Nat) (st st' : PState), loop lines len fuel st = some st' →
      InvGood st → InvGood st' := by
  intro fuel
  induction fuel with
  | zero =>
    intro st st' h _
    exact absurd h (by simp [loop])
  | succ n ih =>
    intro st st' h hi
    rw [loop] at h
    split at h
    · exact ih _ _ h (step_InvGood lines len st hnl hi)
    · injection h with h'
      rw [← h']
      exact hi

theorem finalize_DataGood (st : PState) (hi : InvGood st) :
    DataGood (finalize st) := by
  obtain ⟨hdata, hsubj, hbuf⟩ := hi
  have hD : DataGood (match st.currentSubject with
      | some s => flushUnit st.data s st.currentUnit
      | none => st.data) := by
    cases hcs : st.currentSubject with
    | some s => exact flushUnit_DataGood _ s _ hdata (hsubj s hcs) hbuf
    | none => exact hdata
  obtain ⟨hn, hk, hu⟩ := hD
  refine ⟨?_, ?_, ?_⟩
  · exact List.Nodup.sublist ((List.filter_sublist _).map Prod.fst) hn
  · intro p hp
    exact hk p (List.mem_filter.mp hp).1
  · intro p hp u hu'
    exact hu p (List.mem_filter.mp hp).1 u hu'

/-- C9: every key of the returned mapping is a nonempty string, and no
two records share a key. -/
theorem parse_syllabus_keys (text : String) :
    ((parse_syllabus text).map Prod.fst).Nodup ∧
      ∀ p ∈ parse_syllabus text, p.1 ≠ [] := by
  obtain ⟨st, hst, heq⟩ := parse_syllabus_run text
  have hinv : InvGood st :=
    loop_InvGood _ _ (splitLines_no_nl text.data) _ _ _ hst initState_InvGood
  have hD := finalize_DataGood st hinv
  rw [heq]
  exact ⟨hD.1, hD.2.1⟩

/-- C9 witness: on `threeUnitText` the keys are distinct and the parsed
key is nonempty. -/
theorem parse_syllabus_keys_witness :
    ((parse_syllabus threeUnitText).map Prod.fst).Nodup ∧
      (("Epsilon Zeta".data,
        ({ units := ["Unit I: One\nA".data, "Unit II: Two\nB".data,
                     "Unit III: Three\nC".data],
           labWork := [],
           details := [("Course No", "CSC300".data)] } : CourseRec)) :
        List Char × CourseRec).1 ≠ [] :=
  ⟨(parse_syllabus_keys threeUnitText).1,
   (parse_syllabus_keys threeUnitText).2 _ (by decide)⟩

/-- C10: every stored unit text is nonempty after stripping and its first
line matches the unit-heading pattern. -/
theorem parse_syllabus_units_wellformed (text : String)
    (p : List Char × CourseRec) (u : List Char)
    (hp : p ∈ parse_syllabus text) (hu : u ∈ p.2.units) :
    pyStrip u ≠ [] ∧ unit_start_re (firstLine u) = true := by
  obtain ⟨st, hst, heq⟩ := parse_syllabus_run text
  have hinv : InvGood st :=
    loop_InvGood _ _ (splitLines_no_nl text.data) _ _ _ hst initState_InvGood
  have hD := finalize_DataGood st hinv
  rw [heq] at hp
  obtain ⟨hsf, hne, hstart⟩ := hD.2.2 p hp u hu
  refine ⟨?_, hstart⟩
  rw [hsf]
  exact hne

/-- C10 witness: the first unit of `threeUnitText`. -/
theorem parse_syllabus_units_wellformed_witness :
    pyStrip ("Unit I: One\nA".data) ≠ [] ∧
      unit_start_re (firstLine ("Unit I: One\nA".data)) = true :=
  parse_syllabus_units_wellformed threeUnitText
    ("Epsilon Zeta".data,
      { units := ["Unit I: One\nA".data, "Unit II: Two\nB".data,
                  "Unit III: Three\nC".data],
        labWork := [],
        details := [("Course No", "CSC300".data)] })
    ("Unit I: One\nA".data) (by decide) (by decide)


/-- C4 amended: section-start detection fires exactly on a stripped line
that starts with `Course Contents:` (prefix test, not equality) when no
title was accepted for the line; with a current course it flushes the
unit buffer, sets the parsing-units flag, clears the buffer and advances
without starting a unit, and the flag can only become true that way. -/
theorem course_contents_section_start (lines : List (List Char)) (len : Nat)
    (st : PState) :
    (∀ s, titleDetect lines len st.lineIdx (pyStrip (lines.getD st.lineIdx [])) = none →
      hasPref "Course Contents:".data (pyStrip (lines.getD st.lineIdx [])) = true →
      st.currentSubject = some s →
      step lines len st =
        { st with data := flushUnit st.data s st.currentUnit,
                  parsingContents := true, currentUnit := [],
                  lineIdx := st.lineIdx + 1 }) ∧
    ((step lines len st).parsingContents = true →
      st.parsingContents = true ∨
        (titleDetect lines len st.lineIdx (pyStrip (lines.getD st.lineIdx [])) = none ∧
          hasPref "Course Contents:".data (pyStrip (lines.getD st.lineIdx [])) = true ∧
          st.currentSubject.isSome = true)) := by
  constructor
  · intro s hT hP hS
    simp only [step, hT, hP, hS, if_true]
  · intro hp
    by_cases hT : titleDetect lines len st.lineIdx (pyStrip (lines.getD st.lineIdx [])) = none
    · by_cases hP : hasPref "Course Contents:".data (pyStrip (lines.getD st.lineIdx [])) = true
      · simp only [step, hT, hP, if_true] at hp
        split at hp
        · rename_i s hS
          exact Or.inr ⟨hT, hP, by rw [hS]; rfl⟩
        · exact Or.inl hp
      · have hP' : hasPref "Course Contents:".data (pyStrip (lines.getD st.lineIdx [])) = false := by
          cases hb : hasPref "Course Contents:".data (pyStrip (lines.getD st.lineIdx []))
          · rfl
          · exact absurd hb hP
        left
        simp only [step, hT, hP', Bool.false_eq_true, if_false] at hp
        split at hp
        · exact hp
        · split at hp
          · exact hp
          · split at hp
            · simp at hp
            · split at hp
              · split at hp
                · exact hp
                · exact hp
              · exact hp
    · obtain ⟨pt, hpt⟩ := Option.ne_none_iff_exists'.mp hT
      simp only [step, hpt] at hp
      exact absurd hp (by decide)

/-- C4 amended witness: the concrete section-start step. -/
theorem course_contents_section_start_witness :
    step ccStepLines 1 ccStepState =
      { ccStepState with
          data := flushUnit ccStepState.data "Xy".data ccStepState.currentUnit,
          parsingContents := true, currentUnit := [],
          lineIdx := ccStepState.lineIdx + 1 } :=
  (course_contents_section_start ccStepLines 1 ccStepState).1 "Xy".data
    (by decide) (by decide) rfl

/-- C5 amended: a line matching the explicit `Course Title:` marker is
accepted exactly when the code's keyword window — the marker line itself
or one of the three lines after it — contains a detail keyword; with no
keyword in that window the line falls through to the heuristic
recognizer. -/
theorem explicit_title_keyword_window (lines : List (List Char)) (len idx : Nat)
    (line g : List Char) (hm : course_title_pattern line = some g) :
    (kwWindow lines len idx = true → pyStrip g ≠ [] →
      titleDetect lines len idx line = some (pyStrip g)) ∧
    (kwWindow lines len idx = false →
      titleDetect lines len idx line = heuristicTitle lines len idx line) := by
  constructor
  · intro hw hne
    simp only [titleDetect, hm, hw, if_true]
    rw [if_neg hne]
  · intro hw
    simp only [titleDetect, hm, hw, Bool.false_eq_true, if_false]

/-- C5 amended witness: with the keyword on the following line the marker
is accepted. -/
theorem explicit_title_keyword_window_witness :
    titleDetect kwWinLines 2 0 ("Course Title: Abc".data) = some ("Abc".data) :=
  (explicit_title_keyword_window kwWinLines 2 0 ("Course Title: Abc".data)
    ("Abc".data) (by decide)).1 (by decide) (by decide)


theorem natRange_succ (lo n : Nat) : natRange lo (n + 1) = lo :: natRange (lo + 1) n := rfl

theorem books_start_re_nil : books_start_re [] = false := by decide

theorem course_title_pattern_nil : course_title_pattern [] = none := by decide

theorem general_title_pattern_nil : general_title_pattern [] = none := by decide

theorem labTerminatorAux_bounds (lines : List (List Char)) (len start : Nat) :
    ∀ (fuel t : Nat), t ≤ labTerminatorAux lines len start fuel t ∧
      labTerminatorAux lines len start fuel t ≤ t + fuel := by
  intro fuel
  induction fuel with
  | zero => intro t; constructor <;> simp [labTerminatorAux]
  | succ n ih =>
    intro t
    simp only [labTerminatorAux]
    split
    · simp
    · constructor
      · exact le_trans (Nat.le_succ t) (ih (t + 1)).1
      · exact le_trans (ih (t + 1)).2 (by omega)

theorem labScanAux_spec (lines : List (List Char)) (len start : Nat) :
    ∀ (fuel t blanks : Nat) (desc : List (List Char)),
      fuel = len - t → start ≤ t →
      ((blanks = 0 ∧ (t = start ∨ (pyStrip (lines.getD (t - 1) [])).isEmpty = false)) ∨
        (blanks = 1 ∧ start < t ∧ (pyStrip (lines.getD (t - 1) [])).isEmpty = true)) →
      labScanAux lines len fuel t blanks desc =
        (desc ++ (natRange t (labTerminatorAux lines len start fuel t - t)).map
            (fun i => pyStrip (lines.getD i [])),
          labTerminatorAux lines len start fuel t) := by
  intro fuel
  induction fuel with
  | zero =>
    intro t blanks desc hf hs hinv
    simp [labScanAux, labTerminatorAux, natRange]
  | succ n ih =>
    intro t blanks desc hf hs hinv
    have htlen : t < len := by omega
    have hTb := labTerminatorAux_bounds lines len start n (t + 1)
    cases hnl : (pyStrip (lines.getD t [])).isEmpty with
    | true =>
      have hnl' : pyStrip (lines.getD t []) = [] := List.isEmpty_iff.mp hnl
      rcases hinv with ⟨hb0, hprev⟩ | ⟨hb1, hlt, hprev⟩
      · subst hb0
        have hstop : labStops lines len start t = false := by
          simp only [labStops, hnl', List.isEmpty_nil, Bool.true_and, books_start_re_nil,
            course_title_pattern_nil, general_title_pattern_nil, Option.isSome_none,
            Bool.false_and, Bool.and_false, Bool.or_false]
          rcases hprev with he | hne
          · rw [decide_eq_false (by omega : ¬ start < t), Bool.false_and]
          · rw [hne, Bool.and_false]
        have hc1 : ((pyStrip (lines.getD t [])).isEmpty && decide (2 ≤ 0 + 1)) = false := by
          rw [hnl']
          rfl
        have hrec := ih (t + 1) (0 + 1) (desc ++ [pyStrip (lines.getD t [])]) (by omega)
          (by omega) (Or.inr ⟨by omega, by omega, by simpa using hnl⟩)
        have hc2 : (books_start_re (pyStrip (lines.getD t [])) ||
            (course_title_pattern (pyStrip (lines.getD t []))).isSome ||
            ((general_title_pattern (pyStrip (lines.getD t []))).isSome &&
              decide (t + 1 < len) &&
              hasPref "Course No:".data (pyStrip (lines.getD (t + 1) [])))) = false := by
          rw [hnl']
          simp [books_start_re_nil, course_title_pattern_nil, general_title_pattern_nil]
        simp only [labScanAux]
        rw [if_neg (by rw [hc1]; exact Bool.false_ne_true)]
        rw [if_pos hnl]
        rw [if_neg (by rw [hc2]; exact Bool.false_ne_true)]
        rw [hrec]
        have hT : labTerminatorAux lines len start (n + 1) t =
            labTerminatorAux lines len start n (t + 1) := by
          simp only [labTerminatorAux]
          rw [if_neg (by rw [hstop]; exact Bool.false_ne_true)]
        rw [hT]
        have h1 : labTerminatorAux lines len start n (t + 1) - t =
            (labTerminatorAux lines len start n (t + 1) - (t + 1)) + 1 := by omega
        rw [h1, natRange_succ]
        simp [List.append_assoc]
      · subst hb1
        have hstop : labStops lines len start t = true := by
          simp only [labStops, hnl', hprev, List.isEmpty_nil, Bool.true_and, Bool.and_true]
          rw [decide_eq_true hlt]
          simp
        have hc1 : ((pyStrip (lines.getD t [])).isEmpty && decide (2 ≤ 1 + 1)) = true := by
          rw [hnl']
          rfl
        simp only [labScanAux]
        rw [if_pos hc1]
        have hT : labTerminatorAux lines len start (n + 1) t = t := by
          simp only [labTerminatorAux]
          rw [if_pos hstop]
        rw [hT]
        simp [natRange, Nat.sub_self]
    | false =>
      have hc1 : ((pyStrip (lines.getD t [])).isEmpty && decide (2 ≤ blanks + 1)) = false := by
        rw [hnl, Bool.false_and]
      simp only [labScanAux]
      rw [if_neg (by rw [hc1]; exact Bool.false_ne_true)]
      rw [if_neg (by rw [hnl]; exact Bool.false_ne_true :
        ¬ (pyStrip (lines.getD t [])).isEmpty = true)]
      rcases Bool.eq_false_or_eq_true (books_start_re (pyStrip (lines.getD t [])) ||
          (course_title_pattern (pyStrip (lines.getD t []))).isSome ||
          ((general_title_pattern (pyStrip (lines.getD t []))).isSome &&
            decide (t + 1 < len) &&
            hasPref "Course No:".data (pyStrip (lines.getD (t + 1) [])))) with hcond | hcond
      · have hstop : labStops lines len start t = true := by
          simp only [labStops, hnl, Bool.false_and, Bool.false_or]
          exact hcond
        rw [if_pos hcond]
        have hT : labTerminatorAux lines len start (n + 1) t = t := by
          simp only [labTerminatorAux]
          rw [if_pos hstop]
        rw [hT]
        simp [natRange, Nat.sub_self]
      · have hstop : labStops lines len start t = false := by
          simp only [labStops, hnl, Bool.false_and, Bool.false_or]
          exact hcond
        rw [if_neg (by rw [hcond]; exact Bool.false_ne_true)]
        have hrec := ih (t + 1) 0 (desc ++ [pyStrip (lines.getD t [])]) (by omega) (by omega)
          (Or.inl ⟨rfl, Or.inr (by simpa using hnl)⟩)
        rw [hrec]
        have hT : labTerminatorAux lines len start (n + 1) t =
            labTerminatorAux lines len start n (t + 1) := by
          simp only [labTerminatorAux]
          rw [if_neg (by rw [hstop]; exact Bool.false_ne_true)]
        rw [hT]
        have h1 : labTerminatorAux lines len start n (t + 1) - t =
            (labTerminatorAux lines len start n (t + 1) - (t + 1)) + 1 := by omega
        rw [h1, natRange_succ]
        simp [List.append_assoc]

/-- C6: started at line `start`, the greedy lab-work scan returns exactly
the seed followed by the stripped lines strictly before the spec's least
terminator — the first line at index `t` that is a blank following a
blank consumed line, a Books heading, a `Course Title:` line, or a
general-title line immediately followed by a `Course No:` line — and the
returned position is that terminator's index, so the triggering line is
never consumed into the lab text and the outer loop (which sets
`lineIdx` to `position - 1` and then advances by one) re-examines it
next. -/
theorem lab_scan_terminator (lines : List (List Char)) (len start : Nat)
    (seed : List Char) :
    labScanAux lines len (len - start) start 0 [seed] =
      ([seed] ++ (natRange start (labTerminator lines len start - start)).map
          (fun i => pyStrip (lines.getD i [])),
        labTerminator lines len start) ∧
    start ≤ labTerminator lines len start ∧
    labTerminator lines len start ≤ start + (len - start) := by
  refine ⟨?_, ?_, ?_⟩
  · exact labScanAux_spec lines len start (len - start) start 0 [seed] rfl
      (le_refl start) (Or.inl ⟨rfl, Or.inl rfl⟩)
  · exact (labTerminatorAux_bounds lines len start (len - start) start).1
  · exact (labTerminatorAux_bounds lines len start (len - start) start).2
